import Mathlib

/-!
# EstoqueHub: the product and authentication API, and the browser client

A shallow embedding of `src/src/server.js` (the Express route handlers) and of the
low-stock test of `src/frontend/script.js`.

* JavaScript values that a JSON request can carry are the type `JsValue`; the
  language operations the handlers apply to them (`!x`, `x ?? 0`, `x || null`,
  `Number(x)`, `x < 0`, `x <= y`, `x.length`) are functions on it.
* The persistence collaborator (the Supabase query builder) is outside the
  repository.  It is modelled as lists of rows: an `eq` filter keeps the rows whose
  column equals the value passed, `insert` appends a row, `update` rewrites the
  matching rows, `delete` removes them, `maybeSingle` and `single` fail on the wrong
  number of rows.  Every call takes a `Fault`, chosen by the environment, so that the
  handlers' error branches are reachable.
* `jsonwebtoken` and `bcryptjs` are parameters, gathered in `Env`.
-/

namespace Estoque

/-! ## JavaScript numbers -/

/-- A JavaScript number: NaN, an infinity, or a finite value kept as the rational it
denotes.  Both zeros are `fin 0`: no test of the handlers tells them apart. -/
inductive JsNum where
  | nan
  | inf (neg : Bool)
  | fin (q : ℚ)
deriving DecidableEq

namespace JsNum

/-- The operator `a < b` on numbers: false as soon as one side is NaN. -/
def lt : JsNum → JsNum → Bool
  | fin a, fin b => decide (a < b)
  | fin _, inf neg => !neg
  | inf neg, fin _ => neg
  | inf a, inf b => a && !b
  | _, _ => false

/-- The operator `a <= b` on numbers: false when one side is NaN, otherwise the
negation of `b < a`. -/
def le : JsNum → JsNum → Bool
  | nan, _ => false
  | _, nan => false
  | a, b => !(lt b a)

/-- The test `Number.isNaN(n)`. -/
def isNaN : JsNum → Bool
  | nan => true
  | _ => false

/-- A number is falsy (`!n` is true) when it is zero or NaN. -/
def falsy : JsNum → Bool
  | nan => true
  | inf _ => false
  | fin q => decide (q = 0)

/-- The value is a whole number (neither NaN, nor infinite, nor fractional). -/
def isInteger : JsNum → Bool
  | fin q => decide (q.den = 1)
  | _ => false

/-- Two to an integer power. -/
def pow2 (e : Int) : ℚ :=
  if 0 ≤ e then ((2 ^ e.toNat : Nat) : ℚ) else 1 / ((2 ^ (-e).toNat : Nat) : ℚ)

/-- The number of binary digits of `n`, by halving; `fuel` bounds the halvings and `n`
itself is always enough. -/
def bitLength : Nat → Nat → Nat
  | 0, _ => 0
  | fuel + 1, n => if n = 0 then 0 else bitLength fuel (n / 2) + 1

/-- The binary exponent of the positive rational `n / d`: the `e` with
`2 ^ e ≤ n / d < 2 ^ (e + 1)`. -/
def binaryExponent (n d : Nat) : Int :=
  let e0 : Int := (bitLength n n : Int) - (bitLength d d : Int)
  if (if 0 ≤ e0 then decide (2 ^ e0.toNat * d ≤ n) else decide (d ≤ n * 2 ^ (-e0).toNat))
  then e0 else e0 - 1

/-- The integer nearest to `n / d`, a tie going to the even one. -/
def roundHalfEven (n d : Nat) : Nat :=
  let f := n / d
  let r := n % d
  if 2 * r < d then f else if d < 2 * r then f + 1 else if f % 2 = 0 then f else f + 1

/-- The Number value of the exact value `q` of a numeric literal: the double nearest to
`q`, a tie going to the even significand (IEEE 754 binary64, 53 bits, subnormals from
exponent -1022 down), an infinity when the rounded magnitude reaches `2 ^ 1024`. -/
def ofRat (q : ℚ) : JsNum :=
  if q = 0 then fin 0
  else
    let n := q.num.natAbs
    let d := q.den
    let k : Int := max (binaryExponent n d) (-1022) - 52
    let m := roundHalfEven (n * 2 ^ (-k).toNat) (d * 2 ^ k.toNat)
    if 2 ^ 1024 ≤ (m : ℚ) * pow2 k then inf (decide (q < 0))
    else fin (if q < 0 then -((m : ℚ) * pow2 k) else (m : ℚ) * pow2 k)

end JsNum

/-! ## `Number(string)`: the StringNumericLiteral grammar -/

/-- White space and line terminators that `Number` strips from both ends of a string. -/
def isStrWhiteSpace (c : Char) : Bool :=
  let n := c.toNat
  n == 0x9 || n == 0xA || n == 0xB || n == 0xC || n == 0xD || n == 0x20 || n == 0xA0
    || n == 0x1680 || (decide (0x2000 ≤ n) && decide (n ≤ 0x200A)) || n == 0x2028
    || n == 0x2029 || n == 0x202F || n == 0x205F || n == 0x3000 || n == 0xFEFF

/-- The string without its leading and trailing white space. -/
def trimWhiteSpace (cs : List Char) : List Char :=
  ((cs.dropWhile isStrWhiteSpace).reverse.dropWhile isStrWhiteSpace).reverse

/-- The value of one digit in the given base (letters of either case from ten on). -/
def digitValue (base : Nat) (c : Char) : Option Nat :=
  let n := c.toNat
  let v :=
    if 48 ≤ n ∧ n ≤ 57 then some (n - 48)
    else if 97 ≤ n ∧ n ≤ 102 then some (n - 87)
    else if 65 ≤ n ∧ n ≤ 70 then some (n - 55)
    else none
  v.filter (fun d => decide (d < base))

/-- The value of a run of digits, most significant first; `none` when a character is
not a digit of the base. -/
def digitsValue (base : Nat) : Nat → List Char → Option Nat
  | acc, [] => some acc
  | acc, c :: cs =>
    match digitValue base c with
    | some d => digitsValue base (acc * base + d) cs
    | none => none

/-- A non-empty run of digits and its value. -/
def digitRun (base : Nat) (cs : List Char) : Option Nat :=
  if cs.isEmpty then none else digitsValue base 0 cs

/-- The part from the exponent indicator on: empty, or `e`/`E`, an optional sign and at
least one decimal digit.  Yields the exponent. -/
def exponentPart : List Char → Option Int
  | [] => some 0
  | c :: rest =>
    if c = 'e' ∨ c = 'E' then
      match rest with
      | '+' :: ds => (digitRun 10 ds).map Int.ofNat
      | '-' :: ds => (digitRun 10 ds).map (fun n => - Int.ofNat n)
      | ds => (digitRun 10 ds).map Int.ofNat
    else none

/-- Ten to an integer power. -/
def pow10 (e : Int) : ℚ :=
  if 0 ≤ e then ((10 ^ e.toNat : Nat) : ℚ) else 1 / ((10 ^ (-e).toNat : Nat) : ℚ)

/-- An unsigned decimal literal: `Infinity`, or digits with an optional fraction and an
optional exponent, at least one digit before or after the point.  Yields `none` for
`Infinity` read, `some q` for the exact value of a finite literal; the outer `none`
says the text is no such literal. -/
def unsignedDecimal (cs : List Char) : Option (Option ℚ) :=
  if cs = "Infinity".toList then some none
  else
    let intPart := cs.takeWhile Char.isDigit
    let afterInt := cs.dropWhile Char.isDigit
    let fracPart :=
      match afterInt with
      | '.' :: r => r.takeWhile Char.isDigit
      | _ => []
    let afterFrac :=
      match afterInt with
      | '.' :: r => r.dropWhile Char.isDigit
      | _ => afterInt
    if intPart.isEmpty && fracPart.isEmpty then none
    else
      match digitsValue 10 0 (intPart ++ fracPart), exponentPart afterFrac with
      | some m, some e => some (some ((m : ℚ) * pow10 (e - fracPart.length)))
      | _, _ => none

/-- A decimal literal with its optional sign. -/
def signedDecimal (cs : List Char) : Option JsNum :=
  match cs with
  | '+' :: r => (unsignedDecimal r).map (fun v => match v with
      | none => JsNum.inf false
      | some q => JsNum.ofRat q)
  | '-' :: r => (unsignedDecimal r).map (fun v => match v with
      | none => JsNum.inf true
      | some q => JsNum.ofRat (-q))
  | r => (unsignedDecimal r).map (fun v => match v with
      | none => JsNum.inf false
      | some q => JsNum.ofRat q)

/-- A hexadecimal, octal or binary integer literal (`0x`, `0o`, `0b`, either case);
these take no sign. -/
def nonDecimalLiteral (cs : List Char) : Option JsNum :=
  match cs with
  | '0' :: k :: ds =>
    if k = 'x' ∨ k = 'X' then (digitRun 16 ds).map (fun n => JsNum.ofRat n)
    else if k = 'o' ∨ k = 'O' then (digitRun 8 ds).map (fun n => JsNum.ofRat n)
    else if k = 'b' ∨ k = 'B' then (digitRun 2 ds).map (fun n => JsNum.ofRat n)
    else none
  | _ => none

/-- The conversion `Number(s)` of a string: zero for an empty or blank string, the
value of the numeric literal the trimmed string spells, NaN for anything else. -/
def stringToNumber (s : String) : JsNum :=
  let cs := trimWhiteSpace s.toList
  if cs.isEmpty then JsNum.fin 0
  else
    match nonDecimalLiteral cs with
    | some n => n
    | none =>
      match signedDecimal cs with
      | some n => n
      | none => JsNum.nan

/-! ## JavaScript values -/

/-- A value a JSON request can carry, or `undefined` for an absent field.  An object
or array is kept as what the handlers can observe of it: the string its conversion
to a primitive yields (`none` when that conversion throws a TypeError, as it does
for an object with an own `toString` key), and its `length` property. -/
inductive JsValue where
  | undefined
  | null
  | bool (b : Bool)
  | num (n : JsNum)
  | str (s : String)
  | obj (prim : Option String) (length : JsValue)
deriving DecidableEq

/-- The UTF-16 code units of one character. -/
def utf16Units (c : Char) : List Nat :=
  let n := c.toNat
  if n < 0x10000 then [n]
  else [0xD800 + (n - 0x10000) / 0x400, 0xDC00 + (n - 0x10000) % 0x400]

/-- The UTF-16 code units of a string, which is how JavaScript sees it. -/
def codeUnits (s : String) : List Nat :=
  (s.toList.map utf16Units).flatten

/-- The operator `<` on two strings: lexicographic on code units. -/
def unitsLt : List Nat → List Nat → Bool
  | _, [] => false
  | [], _ :: _ => true
  | x :: xs, y :: ys => if x < y then true else if y < x then false else unitsLt xs ys

namespace JsValue

/-- Truthiness: `undefined`, `null`, `false`, zero, NaN and the empty string are
falsy, everything else is truthy. -/
def truthy : JsValue → Bool
  | undefined => false
  | null => false
  | bool b => b
  | num n => !n.falsy
  | str s => !decide (s = "")
  | obj _ _ => true

/-- The operator `v ?? d`. -/
def orDefault (v d : JsValue) : JsValue :=
  match v with
  | undefined => d
  | null => d
  | _ => v

/-- The operator `v || d`. -/
def orElse (v d : JsValue) : JsValue :=
  if v.truthy then v else d

/-- Conversion to a primitive; `none` when it throws. -/
def toPrimitive : JsValue → Option JsValue
  | obj (some p) _ => some (str p)
  | obj none _ => none
  | v => some v

/-- The conversion `Number(v)` of a primitive. -/
def primToNumber : JsValue → JsNum
  | undefined => JsNum.nan
  | null => JsNum.fin 0
  | bool b => if b then JsNum.fin 1 else JsNum.fin 0
  | num n => n
  | str s => stringToNumber s
  | obj _ _ => JsNum.nan

/-- The conversion `Number(v)`; `none` when it throws. -/
def toNumber (v : JsValue) : Option JsNum :=
  v.toPrimitive.map primToNumber

/-- The property `v.length`; `none` when reading it throws (on `undefined` and
`null`). -/
def lengthOf : JsValue → Option JsValue
  | undefined => none
  | null => none
  | bool _ => some undefined
  | num _ => some undefined
  | str s => some (num (JsNum.fin (codeUnits s).length))
  | obj _ len => some len

/-- The operator `a < b`; `none` when a conversion throws.  Two strings compare by
code units, any other pair as numbers. -/
def lessThan (a b : JsValue) : Option Bool :=
  match a.toPrimitive, b.toPrimitive with
  | some (str x), some (str y) => some (unitsLt (codeUnits x) (codeUnits y))
  | some pa, some pb => some (JsNum.lt pa.primToNumber pb.primToNumber)
  | _, _ => none

/-- The operator `a <= b`; `none` when a conversion throws. -/
def lessEq (a b : JsValue) : Option Bool :=
  match a.toPrimitive, b.toPrimitive with
  | some (str x), some (str y) => some (!(unitsLt (codeUnits y) (codeUnits x)))
  | some pa, some pb => some (JsNum.le pa.primToNumber pb.primToNumber)
  | _, _ => none

end JsValue

/-! ## The persistence collaborator

The handlers reach the database through `supabase`, the client `./supabaseClient`
exports; that module and the service behind it are not among the sources.  The
definitions of this section stand for it.  They follow what the specification says of
it: "a hosted relational store exposing table-style query operations
(select/insert/update/delete with filters)", where "every operation is a single atomic
call", an update touches "only the row matching both id and the caller's user id" and a
delete is a "no-op if no match".
-/

/-- Timestamps the database assigns; only their order matters. -/
abbrev Timestamp := Nat

/-- A row of `users(id, name, email, password_hash)`. -/
structure UserRow where
  id : JsValue
  name : JsValue
  email : JsValue
  password_hash : String
deriving DecidableEq

/-- A row of `products(id, user_id, name, sku, quantity, min_quantity, category,
created_at, updated_at)`. -/
structure ProductRow where
  id : JsValue
  user_id : JsValue
  name : JsValue
  sku : JsValue
  quantity : JsNum
  min_quantity : JsNum
  category : JsValue
  created_at : Timestamp
  updated_at : Timestamp
deriving DecidableEq

/-- Modelled from the spec: the ways one call of the `supabase` client can end ("a
failed database call surfaces immediately"), chosen by the environment. -/
inductive Fault where
  /-- The call runs and its answer comes back. -/
  | ok
  /-- The call is refused: `error` is set and nothing is written. -/
  | error
  /-- The call runs but its answer is lost: `error` is set although a write took
  place. -/
  | errorAfterWrite
  /-- The call throws before anything is sent. -/
  | throws
deriving DecidableEq

/-- Modelled from the spec: the answer of a call of the `supabase` client, which the
handlers destructure as `{ data, error }`: data without an error, an error, or an
exception. -/
inductive Reply (α : Type) where
  | data (a : α)
  | error
  | thrown
deriving DecidableEq

/-- Modelled from the spec: the answer of a read of the `supabase` client under a
fault. -/
def readReply {α : Type} (f : Fault) (r : Reply α) : Reply α :=
  match f with
  | Fault.ok => r
  | Fault.throws => Reply.thrown
  | _ => Reply.error

/-- Modelled from the spec: the modifier `.maybeSingle()` of the `supabase` client: no
row is `null`, one row is that row, more is an error. -/
def maybeSingle {α : Type} : List α → Reply (Option α)
  | [] => Reply.data none
  | [r] => Reply.data (some r)
  | _ => Reply.error

/-- Modelled from the spec: the modifier `.single()` of the `supabase` client: exactly
one row, anything else is an error. -/
def single {α : Type} : List α → Reply α
  | [r] => Reply.data r
  | _ => Reply.error

/-- Modelled from the spec: the `supabase` query
`from("users").select(..).eq("email", email).maybeSingle()`, a select with a filter. -/
def selectUserByEmail (f : Fault) (users : List UserRow) (email : JsValue) :
    Reply (Option UserRow) :=
  readReply f (maybeSingle (users.filter (fun u => decide (u.email = email))))

/-- Modelled from the spec: the `supabase` query
`from("users").insert(row).select(..).single()`: the new row joins the table and comes
back. -/
def insertUser (f : Fault) (users : List UserRow) (row : UserRow) :
    Reply UserRow × List UserRow :=
  match f with
  | Fault.ok => (Reply.data row, users ++ [row])
  | Fault.error => (Reply.error, users)
  | Fault.errorAfterWrite => (Reply.error, users ++ [row])
  | Fault.throws => (Reply.thrown, users)

/-- Modelled from the spec: the `supabase` query
`from("products").select(..).eq("user_id", userId).order("created_at", { ascending: false })`:
the rows of that user, newest first. -/
def selectProductsOfUser (f : Fault) (store : List ProductRow) (userId : JsValue) :
    Reply (Option (List ProductRow)) :=
  readReply f (Reply.data (some
    ((store.filter (fun p => decide (p.user_id = userId))).insertionSort
      (fun a b => b.created_at ≤ a.created_at))))

/-- Modelled from the spec: the `supabase` query
`from("products").select("id").eq("user_id", userId).eq("sku", sku).maybeSingle()`. -/
def selectProductBySku (f : Fault) (store : List ProductRow) (userId sku : JsValue) :
    Reply (Option ProductRow) :=
  readReply f (maybeSingle
    (store.filter (fun p => decide (p.user_id = userId) && decide (p.sku = sku))))

/-- Modelled from the spec: the `supabase` query
`from("products").select("id").eq("user_id", userId).eq("sku", sku).neq("id", id)`. -/
def selectOtherProductsBySku (f : Fault) (store : List ProductRow) (userId sku : JsValue)
    (id : JsNum) : Reply (Option (List ProductRow)) :=
  readReply f (Reply.data (some (store.filter (fun p =>
    decide (p.user_id = userId) && decide (p.sku = sku) && !decide (p.id = JsValue.num id)))))

/-- Modelled from the spec: the `supabase` query
`from("products").insert(row).select(..).single()`: the new row joins the table and
comes back. -/
def insertProduct (f : Fault) (store : List ProductRow) (row : ProductRow) :
    Reply ProductRow × List ProductRow :=
  match f with
  | Fault.ok => (Reply.data row, store ++ [row])
  | Fault.error => (Reply.error, store)
  | Fault.errorAfterWrite => (Reply.error, store ++ [row])
  | Fault.throws => (Reply.thrown, store)

/-- Modelled from the spec: the rows the filter `.eq("id", id).eq("user_id", userId)` of
the `supabase` client selects. -/
def ownedWithId (userId : JsValue) (id : JsNum) (p : ProductRow) : Bool :=
  decide (p.id = JsValue.num id) && decide (p.user_id = userId)

/-- Modelled from the spec: the table after the `supabase` call `update(set)` on the
rows `sel` selects, read with `.single()`.  The call is atomic: the write stands when
exactly one row is selected, and nothing is written when the single-row reading
fails. -/
def updatedRows (store : List ProductRow) (sel : ProductRow → Bool)
    (set : ProductRow → ProductRow) : List ProductRow :=
  if (store.filter sel).length = 1 then store.map (fun p => if sel p then set p else p)
  else store

/-- Modelled from the spec: the `supabase` query
`from("products").update(set).eq("id", id).eq("user_id", userId).select(..).single()`. -/
def updateProduct (f : Fault) (store : List ProductRow) (userId : JsValue) (id : JsNum)
    (set : ProductRow → ProductRow) : Reply ProductRow × List ProductRow :=
  match f with
  | Fault.ok =>
    (single ((store.filter (ownedWithId userId id)).map set),
      updatedRows store (ownedWithId userId id) set)
  | Fault.error => (Reply.error, store)
  | Fault.errorAfterWrite => (Reply.error, updatedRows store (ownedWithId userId id) set)
  | Fault.throws => (Reply.thrown, store)

/-- Modelled from the spec: the `supabase` query
`from("products").delete().eq("id", id).eq("user_id", userId)`: the matching rows go,
and no match is no error. -/
def deleteProduct (f : Fault) (store : List ProductRow) (userId : JsValue) (id : JsNum) :
    Reply Unit × List ProductRow :=
  match f with
  | Fault.ok => (Reply.data (), store.filter (fun p => !ownedWithId userId id p))
  | Fault.error => (Reply.error, store)
  | Fault.errorAfterWrite => (Reply.error, store.filter (fun p => !ownedWithId userId id p))
  | Fault.throws => (Reply.thrown, store)

/-! ## Tokens, passwords and responses -/

/-- The payload `jwt.verify` returns: `decoded.userId` and `decoded.email`, each
`undefined` when the token does not carry it. -/
structure Decoded where
  userId : JsValue
  email : JsValue
deriving DecidableEq

/-- The libraries the server calls, as they behave at the time of one request.
`jwtSign userId email` is `jwt.sign({ userId, email }, JWT_SECRET, { expiresIn: "8h" })`;
`jwtVerify token` is `jwt.verify(token, JWT_SECRET)`, `none` when it throws (bad
signature, malformed or expired token); `bcryptHash` is `bcrypt.hash(password, 10)` and
`bcryptCompare` is `bcrypt.compare(password, hash)`, both on strings. -/
structure Env where
  jwtSign : JsValue → JsValue → String
  jwtVerify : String → Option Decoded
  bcryptHash : String → String
  bcryptCompare : String → String → Bool

/-- The object `req.user` the middleware attaches. -/
structure ReqUser where
  id : JsValue
  email : JsValue
deriving DecidableEq

/-- A product as the API returns it. -/
structure ApiProduct where
  id : JsValue
  name : JsValue
  sku : JsValue
  quantity : JsNum
  minQuantity : JsNum
  category : JsValue
  createdAt : Timestamp
  lastUpdated : Timestamp
deriving DecidableEq

/-- The JSON body of a response. -/
inductive Body where
  /-- The body `{ message }`. -/
  | message (m : String)
  /-- The body `{ token, user: { name, email } }`. -/
  | session (token : String) (name email : JsValue)
  /-- One product. -/
  | product (p : ApiProduct)
  /-- A list of products. -/
  | products (ps : List ApiProduct)
  /-- The page the error handler of Express sends when a middleware fails; it is not
  one of the JSON bodies of the routes. -/
  | errorPage
deriving DecidableEq

/-- A response: `res.status(status).json(body)`; `res.json(body)` alone has status 200. -/
structure Response where
  status : Nat
  body : Body
deriving DecidableEq

/-- The response every `catch` block sends. -/
def internalError : Response :=
  { status := 500, body := Body.message "Erro interno no servidor." }

/-- The function `generateToken(user)`. -/
def generateToken (env : Env) (user : UserRow) : String :=
  env.jwtSign user.id user.email

/-! ## The authentication middleware -/

/-- The method `s.split(" ")`: the pieces between single spaces, never an empty list. -/
def splitOnSpace : List Char → List (List Char)
  | [] => [[]]
  | c :: cs =>
    if c = ' ' then [] :: splitOnSpace cs
    else
      match splitOnSpace cs with
      | [] => [[c]]
      | piece :: rest => (c :: piece) :: rest

/-- The first element of `authHeader.split(" ")`, `scheme` in the source. -/
def headerScheme (authHeader : String) : String :=
  String.mk ((splitOnSpace authHeader.toList).headD [])

/-- The second element of `authHeader.split(" ")`, `token` in the source; `none` is
`undefined`. -/
def headerToken (authHeader : String) : Option String :=
  ((splitOnSpace authHeader.toList).get? 1).map String.mk

/-- What the middleware does: it answers, or it calls `next()` with `req.user` set. -/
inductive AuthOutcome where
  | respond (r : Response)
  | next (user : ReqUser)
deriving DecidableEq

/-- The function `authMiddleware(req, res, next)`; `authorization` is
`req.headers["authorization"]`, `none` when the header is absent. -/
def authMiddleware (env : Env) (authorization : Option String) : AuthOutcome :=
  let authHeader := authorization.getD ""
  let scheme := headerScheme authHeader
  let token := headerToken authHeader
  if scheme ≠ "Bearer" ∨ token.getD "" = "" then
    AuthOutcome.respond { status := 401, body := Body.message "Token não fornecido." }
  else
    match env.jwtVerify (token.getD "") with
    | some decoded => AuthOutcome.next { id := decoded.userId, email := decoded.email }
    | none =>
      AuthOutcome.respond { status := 401, body := Body.message "Token inválido ou expirado." }

/-- A route registered as `app.METHOD(path, authMiddleware, handler)`: the handler runs
only when the middleware calls `next()`. -/
def protectedRoute {σ : Type} (env : Env) (authorization : Option String)
    (handler : ReqUser → σ → Response × σ) (s : σ) : Response × σ :=
  match authMiddleware env authorization with
  | AuthOutcome.respond r => (r, s)
  | AuthOutcome.next user => handler user s

/-! ## The middleware before every route, and the health route -/

/-- What `app.use(express.json())` (line 18) does with a request before any route
sees it.  The parser is a library, so its verdict is an input: it calls `next()` (no
body, a body that is not JSON by its content type, or JSON that parses), or it fails
and the error handler of Express answers with the status of the error (400 for
malformed JSON, 413 for a body over the size limit, 415 for an unsupported charset
or encoding). -/
inductive BodyParser where
  | next
  | refuse (status : Nat)
deriving DecidableEq

/-- The middleware registered with `app.use` before the routes (lines 12-18):
`cors({ origin: "*" })` passes every `GET`, `POST`, `PUT` and `DELETE` request on, and
`express.json()` passes it on or has it answered without any route running. -/
def appMiddleware {σ : Type} (parser : BodyParser) (route : σ → Response × σ) (s : σ) :
    Response × σ :=
  match parser with
  | BodyParser.next => route s
  | BodyParser.refuse status => ({ status := status, body := Body.errorPage }, s)

/-- A route registered as `app.METHOD(path, handler)`, with no middleware of its own
before the handler: once the request reaches the route, the handler runs whatever the
`Authorization` header. -/
def openRoute {σ : Type} (_env : Env) (_authorization : Option String)
    (handler : σ → Response × σ) (s : σ) : Response × σ :=
  handler s

/-- The handler of `GET /`: `res.json({ message: "API EstoqueHub online" })`.  It reads
nothing of the request and makes no store call, so the state comes back as it was. -/
def getRoot {σ : Type} (s : σ) : Response × σ :=
  ({ status := 200, body := Body.message "API EstoqueHub online" }, s)

/-- A request `GET /` served by the application: the middleware of lines 12-18, then
the route `app.get("/", handler)`. -/
def healthRoute {σ : Type} (env : Env) (authorization : Option String)
    (parser : BodyParser) (s : σ) : Response × σ :=
  appMiddleware parser (openRoute env authorization getRoot) s

/-! ## The authentication routes -/

/-- The fields `{ name, email, password }` of `req.body || {}`. -/
structure RegisterBody where
  name : JsValue
  email : JsValue
  password : JsValue

/-- The handler of `POST /auth/register`.  `lookup` and `insert` are the faults of
its two store calls and `newId` the id the database gives the new row. -/
def register (env : Env) (users : List UserRow) (body : RegisterBody)
    (lookup insert : Fault) (newId : JsValue) : Response × List UserRow :=
  if !body.name.truthy || !body.email.truthy || !body.password.truthy then
    ({ status := 400, body := Body.message "Nome, e-mail e senha são obrigatórios." }, users)
  else
    match body.name.lengthOf.bind (fun len => len.lessThan (JsValue.num (JsNum.fin 3))) with
    | none => (internalError, users)
    | some true =>
      ({ status := 400, body := Body.message "Nome deve ter pelo menos 3 caracteres." },
        users)
    | some false =>
      match selectUserByEmail lookup users body.email with
      | Reply.thrown => (internalError, users)
      | Reply.error =>
        ({ status := 500, body := Body.message "Erro ao verificar usuário." }, users)
      | Reply.data (some _) =>
        ({ status := 400, body := Body.message "Já existe um usuário com esse e-mail." },
          users)
      | Reply.data none =>
        match body.password with
        | JsValue.str password =>
          match insertUser insert users
              { id := newId, name := body.name, email := body.email,
                password_hash := env.bcryptHash password } with
          | (Reply.thrown, users1) => (internalError, users1)
          | (Reply.error, users1) =>
            ({ status := 500, body := Body.message "Erro ao criar usuário." }, users1)
          | (Reply.data insertedUser, users1) =>
            ({ status := 201,
               body := Body.session (generateToken env insertedUser) insertedUser.name
                 insertedUser.email }, users1)
        | _ => (internalError, users)

/-- The fields `{ email, password }` of `req.body || {}`. -/
structure LoginBody where
  email : JsValue
  password : JsValue

/-- The handler of `POST /auth/login`; it writes nothing. -/
def login (env : Env) (users : List UserRow) (body : LoginBody) (lookup : Fault) :
    Response :=
  if !body.email.truthy || !body.password.truthy then
    { status := 400, body := Body.message "E-mail e senha são obrigatórios." }
  else
    match selectUserByEmail lookup users body.email with
    | Reply.thrown => internalError
    | Reply.error => { status := 500, body := Body.message "Erro ao buscar usuário." }
    | Reply.data none => { status := 400, body := Body.message "Credenciais inválidas." }
    | Reply.data (some user) =>
      match body.password with
      | JsValue.str password =>
        if !env.bcryptCompare password user.password_hash then
          { status := 400, body := Body.message "Credenciais inválidas." }
        else
          { status := 200,
            body := Body.session (generateToken env user) user.name user.email }
      | _ => internalError

/-! ## The product routes -/

/-- The mapping from a stored row to the API shape, written out in each handler. -/
def normalize (p : ProductRow) : ApiProduct :=
  { id := p.id
    name := p.name
    sku := p.sku
    quantity := p.quantity
    minQuantity := p.min_quantity
    category := p.category
    createdAt := p.created_at
    lastUpdated := p.updated_at }

/-- What the handler of `GET /products` answers for the reply of its query: 200 with
`(data || []).map(..)` unless the query failed. -/
def listResponse (reply : Reply (Option (List ProductRow))) : Response :=
  match reply with
  | Reply.thrown => internalError
  | Reply.error => { status := 500, body := Body.message "Erro ao buscar produtos." }
  | Reply.data data =>
    { status := 200, body := Body.products ((data.getD []).map normalize) }

/-- The handler of `GET /products`; it writes nothing. -/
def getProducts (store : List ProductRow) (user : ReqUser) (select : Fault) : Response :=
  listResponse (selectProductsOfUser select store user.id)

/-- The fields `{ name, sku, quantity, minQuantity, category }` of `req.body || {}`. -/
structure ProductBody where
  name : JsValue
  sku : JsValue
  quantity : JsValue
  minQuantity : JsValue
  category : JsValue

/-- The columns the database fills in on insert. -/
structure Assigned where
  id : JsValue
  created_at : Timestamp
  updated_at : Timestamp

/-- The handler of `POST /products`.  `lookup` and `insert` are the faults of its two
store calls and `assigned` the columns the database fills in. -/
def postProducts (store : List ProductRow) (user : ReqUser) (body : ProductBody)
    (lookup insert : Fault) (assigned : Assigned) : Response × List ProductRow :=
  let userId := user.id
  if !body.name.truthy || !body.sku.truthy then
    ({ status := 400, body := Body.message "Nome e SKU são obrigatórios." }, store)
  else
    match (body.quantity.orDefault (JsValue.num (JsNum.fin 0))).toNumber,
        (body.minQuantity.orDefault (JsValue.num (JsNum.fin 0))).toNumber with
    | some qty, some minQty =>
      if qty.lt (JsNum.fin 0) || minQty.lt (JsNum.fin 0) then
        ({ status := 400,
           body := Body.message "Quantidade e estoque mínimo não podem ser negativos." },
          store)
      else
        match selectProductBySku lookup store userId body.sku with
        | Reply.thrown => (internalError, store)
        | Reply.error =>
          ({ status := 500, body := Body.message "Erro ao verificar SKU." }, store)
        | Reply.data (some _) =>
          ({ status := 400, body := Body.message "Já existe um produto com esse SKU." },
            store)
        | Reply.data none =>
          match insertProduct insert store
              { id := assigned.id
                user_id := userId
                name := body.name
                sku := body.sku
                quantity := qty
                min_quantity := minQty
                category := body.category.orElse JsValue.null
                created_at := assigned.created_at
                updated_at := assigned.updated_at } with
          | (Reply.thrown, store1) => (internalError, store1)
          | (Reply.error, store1) =>
            ({ status := 500, body := Body.message "Erro ao criar produto." }, store1)
          | (Reply.data data, store1) =>
            ({ status := 201, body := Body.product (normalize data) }, store1)
    | _, _ => (internalError, store)

/-- The columns `update({ name, sku, quantity, min_quantity, category })` sets. -/
def applyUpdate (body : ProductBody) (qty minQty : JsNum) (p : ProductRow) : ProductRow :=
  { p with
    name := body.name
    sku := body.sku
    quantity := qty
    min_quantity := minQty
    category := body.category.orElse JsValue.null }

/-- The handler of `PUT /products/:id`; `idParam` is `req.params.id`. -/
def putProductsId (store : List ProductRow) (user : ReqUser) (idParam : String)
    (body : ProductBody) (lookup update : Fault) : Response × List ProductRow :=
  let userId := user.id
  let id := stringToNumber idParam
  if id.falsy || id.isNaN then
    ({ status := 400, body := Body.message "ID inválido." }, store)
  else if !body.name.truthy || !body.sku.truthy then
    ({ status := 400, body := Body.message "Nome e SKU são obrigatórios." }, store)
  else
    match (body.quantity.orDefault (JsValue.num (JsNum.fin 0))).toNumber,
        (body.minQuantity.orDefault (JsValue.num (JsNum.fin 0))).toNumber with
    | some qty, some minQty =>
      if qty.lt (JsNum.fin 0) || minQty.lt (JsNum.fin 0) then
        ({ status := 400,
           body := Body.message "Quantidade e estoque mínimo não podem ser negativos." },
          store)
      else
        match selectOtherProductsBySku lookup store userId body.sku id with
        | Reply.thrown => (internalError, store)
        | Reply.error =>
          ({ status := 500, body := Body.message "Erro ao verificar SKU." }, store)
        | Reply.data existing =>
          if 0 < (existing.getD []).length then
            ({ status := 400, body := Body.message "Já existe outro produto com esse SKU." },
              store)
          else
            match updateProduct update store userId id (applyUpdate body qty minQty) with
            | (Reply.thrown, store1) => (internalError, store1)
            | (Reply.error, store1) =>
              ({ status := 500, body := Body.message "Erro ao atualizar produto." }, store1)
            | (Reply.data data, store1) =>
              ({ status := 200, body := Body.product (normalize data) }, store1)
    | _, _ => (internalError, store)

/-- The handler of `DELETE /products/:id`; `idParam` is `req.params.id`. -/
def deleteProductsId (store : List ProductRow) (user : ReqUser) (idParam : String)
    (delete : Fault) : Response × List ProductRow :=
  let userId := user.id
  let id := stringToNumber idParam
  if id.falsy || id.isNaN then
    ({ status := 400, body := Body.message "ID inválido." }, store)
  else
    match deleteProduct delete store userId id with
    | (Reply.thrown, store1) => (internalError, store1)
    | (Reply.error, store1) =>
      ({ status := 500, body := Body.message "Erro ao remover produto." }, store1)
    | (Reply.data _, store1) =>
      ({ status := 200, body := Body.message "Produto removido com sucesso." }, store1)

/-! ## The browser client -/

/-- A JSON object as the client receives it: its properties in order. -/
abbrev JsObject := List (String × JsValue)

/-- Property access `o[key]`: `undefined` for a property the object lacks. -/
def getProp (o : JsObject) (key : String) : JsValue :=
  (o.lookup key).getD JsValue.undefined

/-- The test `p.quantidade <= p.estoque_minimo` of `carregarProdutos`; `none` when the
comparison throws. -/
def alerta (p : JsObject) : Option Bool :=
  (getProp p "quantidade").lessEq (getProp p "estoque_minimo")

/-- The class and the text of the status cell `carregarProdutos` renders for a
product. -/
def statusCell (p : JsObject) : Option (String × String) :=
  (alerta p).map (fun a =>
    (if a then "status-alert" else "status-ok", if a then "Estoque Baixo" else "Normal"))

/-- A number as `JSON.stringify` and `JSON.parse` carry it: NaN and the infinities
become `null`. -/
def jsonNumber : JsNum → JsValue
  | JsNum.fin q => JsValue.num (JsNum.fin q)
  | _ => JsValue.null

/-- The JSON object of a product the API returns, as the client parses it (the two
timestamps stand for their JSON strings). -/
def ApiProduct.toObject (p : ApiProduct) : JsObject :=
  [("id", p.id), ("name", p.name), ("sku", p.sku), ("quantity", jsonNumber p.quantity),
    ("minQuantity", jsonNumber p.minQuantity), ("category", p.category),
    ("createdAt", JsValue.num (JsNum.fin p.createdAt)),
    ("lastUpdated", JsValue.num (JsNum.fin p.lastUpdated))]

/-! ## Predicates on the tables -/

/-- No two rows of the products table with the same `user_id` share the same `sku`. -/
def SkuUnique (store : List ProductRow) : Prop :=
  store.Pairwise (fun a b => ¬ (a.user_id = b.user_id ∧ a.sku = b.sku))

instance (store : List ProductRow) : Decidable (SkuUnique store) :=
  inferInstanceAs (Decidable (List.Pairwise _ store))

/-- No two rows of the users table share the same `email`. -/
def EmailUnique (users : List UserRow) : Prop :=
  users.Pairwise (fun a b => a.email ≠ b.email)

instance (users : List UserRow) : Decidable (EmailUnique users) :=
  inferInstanceAs (Decidable (List.Pairwise _ users))

/-- The rows of the products table that belong to somebody other than `userId`. -/
def rowsOfOthers (userId : JsValue) (store : List ProductRow) : List ProductRow :=
  store.filter (fun p => decide (p.user_id ≠ userId))

/-! ## Sample data -/

/-- A caller: the user with id 1. -/
def ana : ReqUser :=
  { id := JsValue.num (JsNum.fin 1), email := JsValue.str "ana@x.com" }

/-- The request body `{ name: "Widget", sku: "W-1", quantity: 5, minQuantity: 10 }`. -/
def widgetBody : ProductBody :=
  { name := JsValue.str "Widget"
    sku := JsValue.str "W-1"
    quantity := JsValue.num (JsNum.fin 5)
    minQuantity := JsValue.num (JsNum.fin 10)
    category := JsValue.undefined }

/-- The request body `{ name: "Gadget", sku: "G-7", quantity: 2 }`. -/
def gadgetBody : ProductBody :=
  { name := JsValue.str "Gadget"
    sku := JsValue.str "G-7"
    quantity := JsValue.num (JsNum.fin 2)
    minQuantity := JsValue.undefined
    category := JsValue.undefined }

/-- The row of product 1: the widget of user 1. -/
def widgetRow : ProductRow :=
  { id := JsValue.num (JsNum.fin 1)
    user_id := JsValue.num (JsNum.fin 1)
    name := JsValue.str "Widget"
    sku := JsValue.str "W-1"
    quantity := JsNum.fin 5
    min_quantity := JsNum.fin 10
    category := JsValue.null
    created_at := 100
    updated_at := 100 }

/-- The row of product 2: a product of user 2 with the same SKU. -/
def otherRow : ProductRow :=
  { id := JsValue.num (JsNum.fin 2)
    user_id := JsValue.num (JsNum.fin 2)
    name := JsValue.str "Widget"
    sku := JsValue.str "W-1"
    quantity := JsNum.fin 0
    min_quantity := JsNum.fin 0
    category := JsValue.null
    created_at := 200
    updated_at := 200 }

/-- A products table with one row of each of two users. -/
def sampleStore : List ProductRow :=
  [widgetRow, otherRow]

/-- The columns the database gives the next product. -/
def sampleAssigned : Assigned :=
  { id := JsValue.num (JsNum.fin 3), created_at := 300, updated_at := 300 }

/-- A toy instance of the libraries: every token issued is the same one, and it
verifies as user 1; a hash is the password behind a fixed salt. -/
def sampleEnv : Env :=
  { jwtSign := fun _ _ => "header.payload.signature"
    jwtVerify := fun token =>
      if token = "header.payload.signature" then
        some { userId := JsValue.num (JsNum.fin 1), email := JsValue.str "ana@x.com" }
      else none
    bcryptHash := fun password => "$2a$10$salt" ++ password
    bcryptCompare := fun password hash => decide (hash = "$2a$10$salt" ++ password) }

/-- The row of user 1 as `register` stores it for the password `secret1`. -/
def anaRow : UserRow :=
  { id := JsValue.num (JsNum.fin 1)
    name := JsValue.str "Ana Silva"
    email := JsValue.str "ana@x.com"
    password_hash := "$2a$10$saltsecret1" }

/-- The request body `{ name, email, password }` of three strings. -/
def registration (name email password : String) : RegisterBody :=
  { name := JsValue.str name, email := JsValue.str email, password := JsValue.str password }

/-- The row `register` hands to `insert` for a body of three strings, with the id the
database gives it. -/
def registeredRow (env : Env) (newId : JsValue) (name email password : String) : UserRow :=
  { id := newId
    name := JsValue.str name
    email := JsValue.str email
    password_hash := env.bcryptHash password }

/-- The request body `{ name: "Widget", sku: "W-1", quantity: "-3" }`: a negative
quantity sent as a string. -/
def negativeBody : ProductBody :=
  { name := JsValue.str "Widget"
    sku := JsValue.str "W-1"
    quantity := JsValue.str "-3"
    minQuantity := JsValue.undefined
    category := JsValue.undefined }

/-- The request body `{ name: "Widget", sku: "W-1", quantity: 1.5, minQuantity: "abc" }`:
a fraction and a text that is no number. -/
def fractionBody : ProductBody :=
  { name := JsValue.str "Widget"
    sku := JsValue.str "W-1"
    quantity := JsValue.num (JsNum.fin (3 / 2))
    minQuantity := JsValue.str "abc"
    category := JsValue.undefined }

/-- A product of the legacy `/produtos` shape the client reads, with five in stock and
a minimum of ten. -/
def produtoLegado : JsObject :=
  [("id", JsValue.num (JsNum.fin 1)), ("nome", JsValue.str "Widget"),
    ("sku", JsValue.str "W-1"), ("quantidade", JsValue.num (JsNum.fin 5)),
    ("estoque_minimo", JsValue.num (JsNum.fin 10)), ("preco", JsValue.num (JsNum.fin 2))]

/-- The request body `{ name: "Widget", sku: "W-1", quantity: -1,
minQuantity: { "toString": 1 } }`: a negative quantity next to an object whose conversion
to a number throws. -/
def throwingBody : ProductBody :=
  { name := JsValue.str "Widget"
    sku := JsValue.str "W-1"
    quantity := JsValue.num (JsNum.fin (-1))
    minQuantity := JsValue.obj none JsValue.undefined
    category := JsValue.undefined }

/-- The row of product 3: the gadget of user 1. -/
def gadgetRow : ProductRow :=
  { id := JsValue.num (JsNum.fin 3)
    user_id := JsValue.num (JsNum.fin 1)
    name := JsValue.str "Gadget"
    sku := JsValue.str "G-7"
    quantity := JsNum.fin 2
    min_quantity := JsNum.fin 0
    category := JsValue.null
    created_at := 250
    updated_at := 250 }

/-- A products table in which user 1 owns two products and user 2 one. -/
def anaStore : List ProductRow :=
  [widgetRow, otherRow, gadgetRow]

/-! ## Store calls -/

theorem readReply_data {α : Type} {f : Fault} {r : Reply α} {a : α}
    (h : readReply f r = Reply.data a) : f = Fault.ok ∧ r = Reply.data a := by
  cases f <;> simp [readReply] at h ⊢
  exact h

theorem maybeSingle_none {α : Type} {l : List α} (h : maybeSingle l = Reply.data none) :
    l = [] := by
  match l, h with
  | [], _ => rfl
  | [_], h => simp [maybeSingle] at h
  | _ :: _ :: _, h => simp [maybeSingle] at h

theorem maybeSingle_some {α : Type} {l : List α} {a : α}
    (h : maybeSingle l = Reply.data (some a)) : l = [a] := by
  match l, h with
  | [], h => simp [maybeSingle] at h
  | [_], h => simp [maybeSingle] at h; simp [h]
  | _ :: _ :: _, h => simp [maybeSingle] at h

/-! ## The atomic update on a table with a key -/

/-- On a table in which at most one row matches the filter (as when `id` is a key), the
update read with `.single()` is the plain update of the matching rows: reading it as
atomic changes nothing there -/
theorem updatedRows_eq_map (store : List ProductRow) (sel : ProductRow → Bool)
    (set : ProductRow → ProductRow) (hkey : (store.filter sel).length ≤ 1) :
    updatedRows store sel set = store.map (fun p => if sel p then set p else p) := by
  unfold updatedRows
  split
  · rfl
  · rename_i hne
    have hnil : store.filter sel = [] := by
      apply List.eq_nil_of_length_eq_zero
      omega
    rw [List.filter_eq_nil_iff] at hnil
    symm
    calc store.map (fun p => if sel p then set p else p)
        = store.map id := by
          apply List.map_congr_left
          intro p hp
          simp [hnil p hp]
      _ = store := List.map_id store

/-! ## What each product handler leaves in the table -/

theorem postProducts_store (store : List ProductRow) (user : ReqUser) (body : ProductBody)
    (lookup insert : Fault) (assigned : Assigned) :
    (postProducts store user body lookup insert assigned).2 = store ∨
    ∃ qty minQty, qty.lt (JsNum.fin 0) = false ∧ minQty.lt (JsNum.fin 0) = false ∧
      (∀ p ∈ store, ¬ (p.user_id = user.id ∧ p.sku = body.sku)) ∧
      (postProducts store user body lookup insert assigned).2 = store ++
        [{ id := assigned.id, user_id := user.id, name := body.name, sku := body.sku,
           quantity := qty, min_quantity := minQty,
           category := body.category.orElse JsValue.null,
           created_at := assigned.created_at, updated_at := assigned.updated_at }] := by
  unfold postProducts
  simp only []
  split_ifs with h1
  · exact Or.inl rfl
  · split
    · rename_i qty minQty hq hm
      split_ifs with h2
      · exact Or.inl rfl
      · split
        · exact Or.inl rfl
        · exact Or.inl rfl
        · exact Or.inl rfl
        · rename_i hsel
          have hnil := maybeSingle_none (readReply_data hsel).2
          have hfree : ∀ p ∈ store, ¬ (p.user_id = user.id ∧ p.sku = body.sku) := by
            intro p hp hps
            have : p ∈ List.filter
                (fun p => decide (p.user_id = user.id) && decide (p.sku = body.sku)) store := by
              simp [List.mem_filter, hp, hps.1, hps.2]
            rw [hnil] at this
            exact List.not_mem_nil _ this
          have hq0 : qty.lt (JsNum.fin 0) = false := by
            cases hlt : qty.lt (JsNum.fin 0) <;> simp_all
          have hm0 : minQty.lt (JsNum.fin 0) = false := by
            cases hlt : minQty.lt (JsNum.fin 0) <;> simp_all
          cases insert
          · exact Or.inr ⟨qty, minQty, hq0, hm0, hfree, rfl⟩
          · exact Or.inl rfl
          · exact Or.inr ⟨qty, minQty, hq0, hm0, hfree, rfl⟩
          · exact Or.inl rfl
    · exact Or.inl rfl

theorem putProductsId_store (store : List ProductRow) (user : ReqUser) (idParam : String)
    (body : ProductBody) (lookup update : Fault) :
    (putProductsId store user idParam body lookup update).2 = store ∨
    ∃ qty minQty, qty.lt (JsNum.fin 0) = false ∧ minQty.lt (JsNum.fin 0) = false ∧
      (∀ p ∈ store, p.user_id = user.id → p.sku = body.sku →
        p.id = JsValue.num (stringToNumber idParam)) ∧
      (putProductsId store user idParam body lookup update).2 =
        updatedRows store (ownedWithId user.id (stringToNumber idParam))
          (applyUpdate body qty minQty) := by
  unfold putProductsId
  simp only []
  split_ifs with h0 h1
  · exact Or.inl rfl
  · exact Or.inl rfl
  · split
    · rename_i qty minQty hq hm
      split_ifs with h2
      · exact Or.inl rfl
      · split
        · exact Or.inl rfl
        · exact Or.inl rfl
        · rename_i existing hsel
          split_ifs with h3
          · exact Or.inl rfl
          · have hs := (readReply_data hsel).2
            simp only [selectOtherProductsBySku, Reply.data.injEq] at hs
            have hfree : ∀ p ∈ store, p.user_id = user.id → p.sku = body.sku →
                p.id = JsValue.num (stringToNumber idParam) := by
              intro p hp hu hsku
              by_contra hne
              apply h3
              rw [← hs]
              simp only [Option.getD_some]
              apply List.length_pos_of_mem (a := p)
              simp [List.mem_filter, hp, hu, hsku, hne]
            have hq0 : qty.lt (JsNum.fin 0) = false := by
              cases hlt : qty.lt (JsNum.fin 0) <;> simp_all
            have hm0 : minQty.lt (JsNum.fin 0) = false := by
              cases hlt : minQty.lt (JsNum.fin 0) <;> simp_all
            cases update
            · right
              refine ⟨qty, minQty, hq0, hm0, hfree, ?_⟩
              simp only [updateProduct]
              split <;> rename_i heq <;> simp only [Prod.mk.injEq] at heq <;> exact heq.2.symm
            · exact Or.inl rfl
            · exact Or.inr ⟨qty, minQty, hq0, hm0, hfree, rfl⟩
            · exact Or.inl rfl
    · exact Or.inl rfl

theorem deleteProductsId_store (store : List ProductRow) (user : ReqUser) (idParam : String)
    (delete : Fault) :
    (deleteProductsId store user idParam delete).2 = store ∨
    (deleteProductsId store user idParam delete).2 =
      store.filter (fun p => !ownedWithId user.id (stringToNumber idParam) p) := by
  unfold deleteProductsId
  simp only []
  split_ifs with h0
  · exact Or.inl rfl
  · cases delete
    · exact Or.inr rfl
    · exact Or.inl rfl
    · exact Or.inr rfl
    · exact Or.inl rfl

/-! ## Rows of other users -/

theorem rowsOfOthers_map_owned (store : List ProductRow) (userId : JsValue) (id : JsNum)
    (set : ProductRow → ProductRow) (hset : ∀ p, (set p).user_id = p.user_id) :
    rowsOfOthers userId (store.map (fun p => if ownedWithId userId id p then set p else p)) =
      rowsOfOthers userId store := by
  unfold rowsOfOthers
  induction store with
  | nil => rfl
  | cons p t ih =>
    by_cases hsel : ownedWithId userId id p = true
    · have hu : p.user_id = userId := by
        simp only [ownedWithId, Bool.and_eq_true, decide_eq_true_eq] at hsel
        exact hsel.2
      simp only [List.map_cons, hsel, if_true, List.filter_cons, hset, hu, ne_eq,
        not_true_eq_false, decide_False, Bool.false_eq_true, if_false]
      exact ih
    · simp only [List.map_cons, hsel, Bool.false_eq_true, if_false, List.filter_cons]
      rw [ih]

theorem rowsOfOthers_updatedRows (store : List ProductRow) (userId : JsValue) (id : JsNum)
    (set : ProductRow → ProductRow) (hset : ∀ p, (set p).user_id = p.user_id) :
    rowsOfOthers userId (updatedRows store (ownedWithId userId id) set) =
      rowsOfOthers userId store := by
  unfold updatedRows
  split
  · exact rowsOfOthers_map_owned store userId id set hset
  · rfl

theorem rowsOfOthers_delete (store : List ProductRow) (userId : JsValue) (id : JsNum) :
    rowsOfOthers userId (store.filter (fun p => !ownedWithId userId id p)) =
      rowsOfOthers userId store := by
  unfold rowsOfOthers
  rw [List.filter_filter]
  apply List.filter_congr
  intro p _
  by_cases hu : p.user_id = userId <;> simp [ownedWithId, hu]

/-- C1: a PUT or DELETE of caller B leaves every row of another user as it was -/
theorem put_delete_leave_other_users_rows (store : List ProductRow) (user : ReqUser)
    (idParam : String) (body : ProductBody) (lookup update delete : Fault) :
    rowsOfOthers user.id (putProductsId store user idParam body lookup update).2 =
        rowsOfOthers user.id store ∧
      rowsOfOthers user.id (deleteProductsId store user idParam delete).2 =
        rowsOfOthers user.id store := by
  constructor
  · rcases putProductsId_store store user idParam body lookup update with h | ⟨q, m, _, _, _, h⟩
    · rw [h]
    · rw [h]
      exact rowsOfOthers_updatedRows store user.id _ _ (fun p => rfl)
  · rcases deleteProductsId_store store user idParam delete with h | h
    · rw [h]
    · rw [h]
      exact rowsOfOthers_delete store user.id _

/-! ## Per-user SKU uniqueness -/

theorem length_le_one_of_pairwise {α : Type} {R : α → α → Prop} {l : List α}
    (hp : l.Pairwise R) (hn : ∀ a ∈ l, ∀ b ∈ l, ¬ R a b) : l.length ≤ 1 := by
  match l, hp, hn with
  | [], _, _ => simp
  | [_], _, _ => simp
  | a :: b :: t, hp, hn =>
    exfalso
    rw [List.pairwise_cons] at hp
    exact hn a (by simp) b (by simp) (hp.1 b (by simp))

theorem pairwise_not_both {α : Type} (sel : α → Bool) :
    ∀ l : List α, (l.filter sel).length ≤ 1 →
      l.Pairwise (fun a b => ¬ (sel a = true ∧ sel b = true)) := by
  intro l
  induction l with
  | nil => intro _; exact List.Pairwise.nil
  | cons p t ih =>
    intro h
    rw [List.pairwise_cons]
    constructor
    · intro b hb hboth
      have hbt : b ∈ t.filter sel := List.mem_filter.mpr ⟨hb, hboth.2⟩
      have hpos := List.length_pos_of_mem hbt
      simp only [List.filter_cons, hboth.1, if_true, List.length_cons] at h
      omega
    · apply ih
      by_cases hp : sel p = true
      · simp only [List.filter_cons, hp, if_true, List.length_cons] at h
        omega
      · simpa only [List.filter_cons, hp, Bool.false_eq_true, if_false] using h

theorem skuUnique_filter_eq_singleton {store : List ProductRow} (h : SkuUnique store)
    {p : ProductRow} (hp : p ∈ store) :
    store.filter (fun r => decide (r.user_id = p.user_id) && decide (r.sku = p.sku)) = [p] := by
  have hmem : p ∈ store.filter
      (fun r => decide (r.user_id = p.user_id) && decide (r.sku = p.sku)) := by
    simp [List.mem_filter, hp]
  have hle : (store.filter
      (fun r => decide (r.user_id = p.user_id) && decide (r.sku = p.sku))).length ≤ 1 := by
    apply length_le_one_of_pairwise (List.Pairwise.sublist (List.filter_sublist store) h)
    intro a ha b hb
    simp only [List.mem_filter, Bool.and_eq_true, decide_eq_true_eq] at ha hb
    simp [ha.2.1, ha.2.2, hb.2.1, hb.2.2]
  generalize store.filter
      (fun r => decide (r.user_id = p.user_id) && decide (r.sku = p.sku)) = l at hmem hle
  match l, hmem, hle with
  | [], hmem, _ => simp at hmem
  | [a], hmem, _ =>
    simp only [List.mem_singleton] at hmem
    rw [hmem]
  | _ :: _ :: _, _, hle => simp at hle

theorem skuUnique_append {store : List ProductRow} (h : SkuUnique store) (row : ProductRow)
    (hfree : ∀ p ∈ store, ¬ (p.user_id = row.user_id ∧ p.sku = row.sku)) :
    SkuUnique (store ++ [row]) := by
  unfold SkuUnique at h ⊢
  rw [List.pairwise_append]
  refine ⟨h, List.pairwise_singleton _ _, ?_⟩
  intro a ha b hb
  simp only [List.mem_singleton] at hb
  subst hb
  exact hfree a ha

theorem skuUnique_updatedRows {store : List ProductRow} (h : SkuUnique store)
    (userId : JsValue) (id : JsNum) (body : ProductBody) (qty minQty : JsNum)
    (hfree : ∀ p ∈ store, p.user_id = userId → p.sku = body.sku → p.id = JsValue.num id) :
    SkuUnique (updatedRows store (ownedWithId userId id) (applyUpdate body qty minQty)) := by
  unfold updatedRows
  split
  · rename_i hone
    unfold SkuUnique at h ⊢
    rw [List.pairwise_map]
    have hnb := pairwise_not_both (ownedWithId userId id) store (le_of_eq hone)
    refine List.Pairwise.imp_of_mem ?_ (List.Pairwise.and h hnb)
    intro a b ha hb hab
    obtain ⟨hR, hnot⟩ := hab
    have owned_iff : ∀ r : ProductRow,
        ownedWithId userId id r = true ↔ r.id = JsValue.num id ∧ r.user_id = userId := by
      intro r
      simp [ownedWithId]
    by_cases hsa : ownedWithId userId id a = true
    · by_cases hsb : ownedWithId userId id b = true
      · exact absurd ⟨hsa, hsb⟩ hnot
      · simp only [hsa, hsb, if_true, Bool.false_eq_true, if_false, applyUpdate]
        intro hsame
        apply hsb
        have hbu : b.user_id = userId := by rw [← hsame.1]; exact ((owned_iff a).mp hsa).2
        exact (owned_iff b).mpr ⟨hfree b hb hbu hsame.2.symm, hbu⟩
    · by_cases hsb : ownedWithId userId id b = true
      · simp only [hsa, hsb, if_true, Bool.false_eq_true, if_false, applyUpdate]
        intro hsame
        apply hsa
        have hau : a.user_id = userId := by rw [hsame.1]; exact ((owned_iff b).mp hsb).2
        exact (owned_iff a).mpr ⟨hfree a ha hau hsame.2, hau⟩
      · simpa only [hsa, hsb, Bool.false_eq_true, if_false] using hR
  · exact h

theorem postProducts_status (store : List ProductRow) (user : ReqUser) (body : ProductBody)
    (lookup insert : Fault) (assigned : Assigned) :
    (postProducts store user body lookup insert assigned).1.status = 400 ∨
    (postProducts store user body lookup insert assigned).1.status = 500 ∨
    ∀ p ∈ store, ¬ (p.user_id = user.id ∧ p.sku = body.sku) := by
  unfold postProducts
  simp only []
  split_ifs with h1
  · exact Or.inl rfl
  · split
    · split_ifs with h2
      · exact Or.inl rfl
      · split
        · exact Or.inr (Or.inl rfl)
        · exact Or.inr (Or.inl rfl)
        · exact Or.inl rfl
        · rename_i hsel
          have hnil := maybeSingle_none (readReply_data hsel).2
          refine Or.inr (Or.inr ?_)
          intro p hp hps
          have : p ∈ List.filter
              (fun p => decide (p.user_id = user.id) && decide (p.sku = body.sku)) store := by
            simp [List.mem_filter, hp, hps.1, hps.2]
          rw [hnil] at this
          exact List.not_mem_nil _ this
    · exact Or.inr (Or.inl rfl)

theorem putProductsId_status (store : List ProductRow) (user : ReqUser) (idParam : String)
    (body : ProductBody) (lookup update : Fault) :
    (putProductsId store user idParam body lookup update).1.status = 400 ∨
    (putProductsId store user idParam body lookup update).1.status = 500 ∨
    ∀ p ∈ store, p.user_id = user.id → p.sku = body.sku →
      p.id = JsValue.num (stringToNumber idParam) := by
  unfold putProductsId
  simp only []
  split_ifs with h0 h1
  · exact Or.inl rfl
  · exact Or.inl rfl
  · split
    · split_ifs with h2
      · exact Or.inl rfl
      · split
        · exact Or.inr (Or.inl rfl)
        · exact Or.inr (Or.inl rfl)
        · rename_i existing hsel
          split_ifs with h3
          · exact Or.inl rfl
          · have hs := (readReply_data hsel).2
            simp only [selectOtherProductsBySku, Reply.data.injEq] at hs
            refine Or.inr (Or.inr ?_)
            intro p hp hu hsku
            by_contra hne
            apply h3
            rw [← hs]
            simp only [Option.getD_some]
            apply List.length_pos_of_mem (a := p)
            simp [List.mem_filter, hp, hu, hsku, hne]
    · exact Or.inr (Or.inl rfl)

/-- C2, as the claim states it, fails: a create whose SKU the caller already owns is
answered 500, not 400, when the SKU lookup fails and when Number(minQuantity) throws,
and so is an update whose SKU another row of the caller uses; nothing is written -/
theorem sku_conflict_answered_500 :
    SkuUnique anaStore ∧
    postProducts anaStore ana widgetBody Fault.error Fault.ok sampleAssigned =
      ({ status := 500, body := Body.message "Erro ao verificar SKU." }, anaStore) ∧
    postProducts anaStore ana throwingBody Fault.ok Fault.ok sampleAssigned =
      ({ status := 500, body := Body.message "Erro interno no servidor." }, anaStore) ∧
    putProductsId anaStore ana "1" gadgetBody Fault.error Fault.ok =
      ({ status := 500, body := Body.message "Erro ao verificar SKU." }, anaStore) := by
  decide!

/-- C2, amended: a store without two rows of one user sharing an SKU stays so under
POST /products and PUT /products/:id, whatever the body and the faults; a create whose
SKU the caller already owns, and an update whose SKU another row of the caller uses,
write nothing and are answered 400 or 500: 400 whenever the lookup answers and both
quantities convert without throwing -/
theorem sku_unique_preserved (store : List ProductRow) (h : SkuUnique store)
    (user : ReqUser) (idParam : String) (body : ProductBody) (lookup write : Fault)
    (assigned : Assigned) :
    SkuUnique (postProducts store user body lookup write assigned).2 ∧
    SkuUnique (putProductsId store user idParam body lookup write).2 ∧
    (∀ p ∈ store, p.user_id = user.id → p.sku = body.sku →
      (postProducts store user body lookup write assigned).2 = store ∧
      ((postProducts store user body lookup write assigned).1.status = 400 ∨
        (postProducts store user body lookup write assigned).1.status = 500) ∧
      (lookup = Fault.ok →
        (body.quantity.orDefault (JsValue.num (JsNum.fin 0))).toNumber.isSome →
        (body.minQuantity.orDefault (JsValue.num (JsNum.fin 0))).toNumber.isSome →
        (postProducts store user body lookup write assigned).1.status = 400)) ∧
    (∀ p ∈ store, p.user_id = user.id → p.sku = body.sku →
      p.id ≠ JsValue.num (stringToNumber idParam) →
      (putProductsId store user idParam body lookup write).2 = store ∧
      ((putProductsId store user idParam body lookup write).1.status = 400 ∨
        (putProductsId store user idParam body lookup write).1.status = 500) ∧
      (lookup = Fault.ok →
        (body.quantity.orDefault (JsValue.num (JsNum.fin 0))).toNumber.isSome →
        (body.minQuantity.orDefault (JsValue.num (JsNum.fin 0))).toNumber.isSome →
        (putProductsId store user idParam body lookup write).1.status = 400)) := by
  refine ⟨?_, ?_, ?_, ?_⟩
  · rcases postProducts_store store user body lookup write assigned with
      hs | ⟨qty, minQty, _, _, hfree, hs⟩
    · rw [hs]; exact h
    · rw [hs]; exact skuUnique_append h _ hfree
  · rcases putProductsId_store store user idParam body lookup write with
      hs | ⟨qty, minQty, _, _, hfree, hs⟩
    · rw [hs]; exact h
    · rw [hs]; exact skuUnique_updatedRows h user.id _ body qty minQty hfree
  · intro p hp hu hsku
    refine ⟨?_, ?_, ?_⟩
    · rcases postProducts_store store user body lookup write assigned with
        hs | ⟨_, _, _, _, hfree, _⟩
      · exact hs
      · exact absurd ⟨hu, hsku⟩ (hfree p hp)
    · rcases postProducts_status store user body lookup write assigned with
        hs | hs | hfree
      · exact Or.inl hs
      · exact Or.inr hs
      · exact absurd ⟨hu, hsku⟩ (hfree p hp)
    · intro hl hq hm
      subst hl
      have hsel : selectProductBySku Fault.ok store user.id body.sku =
          Reply.data (some p) := by
        have := skuUnique_filter_eq_singleton h hp
        rw [hu, hsku] at this
        simp only [selectProductBySku, readReply, this, maybeSingle]
      obtain ⟨qty, hq⟩ := Option.isSome_iff_exists.mp hq
      obtain ⟨minQty, hm⟩ := Option.isSome_iff_exists.mp hm
      unfold postProducts
      simp only [hq, hm, hsel]
      split_ifs <;> rfl
  · intro p hp hu hsku hid
    refine ⟨?_, ?_, ?_⟩
    · rcases putProductsId_store store user idParam body lookup write with
        hs | ⟨_, _, _, _, hfree, _⟩
      · exact hs
      · exact absurd (hfree p hp hu hsku) hid
    · rcases putProductsId_status store user idParam body lookup write with
        hs | hs | hfree
      · exact Or.inl hs
      · exact Or.inr hs
      · exact absurd (hfree p hp hu hsku) hid
    · intro hl hq hm
      subst hl
      have hpos : 0 < (store.filter (fun r => decide (r.user_id = user.id) &&
          decide (r.sku = body.sku) &&
          !decide (r.id = JsValue.num (stringToNumber idParam)))).length := by
        apply List.length_pos_of_mem (a := p)
        simp [List.mem_filter, hp, hu, hsku, hid]
      obtain ⟨qty, hq⟩ := Option.isSome_iff_exists.mp hq
      obtain ⟨minQty, hm⟩ := Option.isSome_iff_exists.mp hm
      unfold putProductsId
      simp only [hq, hm, selectOtherProductsBySku, readReply, Option.getD_some, hpos, if_true]
      split_ifs <;> rfl

/-- C2, amended, at a store in which user 1 owns the SKUs W-1 (product 1) and G-7
(product 3): the store is unique per user and stays so when user 1 creates a product
with a new SKU; a create with the owned SKU W-1 and an update of product 1 to the SKU
G-7 of product 3 are answered 400 and write nothing, also when the id is written
"1.00000000000000000001", which Number reads as 1 -/
theorem sku_unique_preserved_witness :
    SkuUnique anaStore ∧
    SkuUnique
      (postProducts anaStore ana
        { name := JsValue.str "Bolt", sku := JsValue.str "B-2", quantity := JsValue.undefined,
          minQuantity := JsValue.undefined, category := JsValue.undefined }
        Fault.ok Fault.ok sampleAssigned).2 ∧
    ((postProducts anaStore ana widgetBody Fault.ok Fault.ok sampleAssigned).2 = anaStore ∧
      (postProducts anaStore ana widgetBody Fault.ok Fault.ok sampleAssigned).1.status =
        400) ∧
    ((putProductsId anaStore ana "1" gadgetBody Fault.ok Fault.ok).2 = anaStore ∧
      (putProductsId anaStore ana "1" gadgetBody Fault.ok Fault.ok).1.status = 400) ∧
    putProductsId anaStore ana "1.00000000000000000001" gadgetBody Fault.ok Fault.ok =
      ({ status := 400, body := Body.message "Já existe outro produto com esse SKU." },
        anaStore) ∧
    (putProductsId anaStore ana "3.00000000000000000001" gadgetBody Fault.ok Fault.ok).1.status
      = 200 :=
  ⟨by decide,
    (sku_unique_preserved anaStore (by decide) ana "1"
      { name := JsValue.str "Bolt", sku := JsValue.str "B-2", quantity := JsValue.undefined,
        minQuantity := JsValue.undefined, category := JsValue.undefined }
      Fault.ok Fault.ok sampleAssigned).1,
    ⟨((sku_unique_preserved anaStore (by decide) ana "1" widgetBody Fault.ok Fault.ok
        sampleAssigned).2.2.1 widgetRow (by decide) (by decide) (by decide)).1,
      ((sku_unique_preserved anaStore (by decide) ana "1" widgetBody Fault.ok Fault.ok
        sampleAssigned).2.2.1 widgetRow (by decide) (by decide) (by decide)).2.2 rfl
        (by decide) (by decide)⟩,
    ⟨((sku_unique_preserved anaStore (by decide) ana "1" gadgetBody Fault.ok Fault.ok
        sampleAssigned).2.2.2 gadgetRow (by decide) (by decide) (by decide)
        (by decide!)).1,
      ((sku_unique_preserved anaStore (by decide) ana "1" gadgetBody Fault.ok Fault.ok
        sampleAssigned).2.2.2 gadgetRow (by decide) (by decide) (by decide)
        (by decide!)).2.2 rfl (by decide) (by decide)⟩,
    by decide!, by decide!⟩

/-! ## Login -/

theorem truthy_str {s : String} (h : s ≠ "") : (JsValue.str s).truthy = true := by
  simp [JsValue.truthy, h]

theorem selectUserByEmail_data {lookup : Fault} {users : List UserRow} {email : JsValue}
    {r : Option UserRow} (h : selectUserByEmail lookup users email = Reply.data r) :
    (r = none ∧ ∀ u ∈ users, u.email ≠ email) ∨
    (∃ u0, r = some u0 ∧ u0 ∈ users ∧ u0.email = email ∧
      ∀ u ∈ users, u.email = email → u = u0) := by
  have hs := (readReply_data h).2
  cases r with
  | none =>
    left
    refine ⟨rfl, ?_⟩
    intro u hu he
    have hm : u ∈ users.filter (fun u => decide (u.email = email)) := by
      simp [List.mem_filter, hu, he]
    rw [maybeSingle_none hs] at hm
    exact List.not_mem_nil _ hm
  | some u0 =>
    right
    have hf := maybeSingle_some hs
    have h0 : u0 ∈ users.filter (fun u => decide (u.email = email)) := by simp [hf]
    simp only [List.mem_filter, decide_eq_true_eq] at h0
    refine ⟨u0, rfl, h0.1, h0.2, ?_⟩
    intro u hu he
    have hm : u ∈ users.filter (fun u => decide (u.email = email)) := by
      simp [List.mem_filter, hu, he]
    rw [hf] at hm
    simpa using hm

/-- C3, as the claim states it, fails: with an empty e-mail (and no user at all) the
lookup is never made and the answer is the message about required fields, not the
generic one -/
theorem login_empty_email_not_generic :
    selectUserByEmail Fault.ok [] (JsValue.str "") = Reply.data none ∧
    login sampleEnv [] { email := JsValue.str "", password := JsValue.str "secret1" }
        Fault.ok =
      { status := 400, body := Body.message "E-mail e senha são obrigatórios." } ∧
    login sampleEnv [] { email := JsValue.str "", password := JsValue.str "secret1" }
        Fault.ok ≠
      { status := 400, body := Body.message "Credenciais inválidas." } := by
  decide

/-- C3, amended: for a non-empty e-mail and a non-empty password, the lookup
answering, login answers 200 with a token and the row's name and e-mail exactly when a
row with that e-mail exists and the password verifies against its hash, and answers
400 "Credenciais inválidas." in every other case -/
theorem login_nonempty_credentials (env : Env) (users : List UserRow)
    (email password : String) (lookup : Fault) (he : email ≠ "") (hp : password ≠ "")
    (hok : ∃ r, selectUserByEmail lookup users (JsValue.str email) = Reply.data r) :
    ((login env users { email := JsValue.str email, password := JsValue.str password }
        lookup).status = 200 ↔
      ∃ u ∈ users, u.email = JsValue.str email ∧
        env.bcryptCompare password u.password_hash = true) ∧
    (∀ u ∈ users, u.email = JsValue.str email →
      env.bcryptCompare password u.password_hash = true →
      login env users { email := JsValue.str email, password := JsValue.str password }
          lookup =
        { status := 200, body := Body.session (generateToken env u) u.name u.email }) ∧
    ((¬ ∃ u ∈ users, u.email = JsValue.str email ∧
        env.bcryptCompare password u.password_hash = true) →
      login env users { email := JsValue.str email, password := JsValue.str password }
          lookup =
        { status := 400, body := Body.message "Credenciais inválidas." }) := by
  obtain ⟨r, hr⟩ := hok
  have hlogin : login env users
      { email := JsValue.str email, password := JsValue.str password } lookup =
      match r with
      | none => { status := 400, body := Body.message "Credenciais inválidas." }
      | some user =>
        if !env.bcryptCompare password user.password_hash then
          { status := 400, body := Body.message "Credenciais inválidas." }
        else
          { status := 200,
            body := Body.session (generateToken env user) user.name user.email } := by
    unfold login
    simp only [truthy_str he, truthy_str hp, hr]
    cases r <;> simp
  rcases selectUserByEmail_data hr with ⟨hnone, hno⟩ | ⟨u0, hsome, hu0, he0, huniq⟩
  · subst hnone
    simp only at hlogin
    refine ⟨?_, ?_, ?_⟩
    · rw [hlogin]
      constructor
      · intro h; simp at h
      · rintro ⟨u, hu, hue, _⟩; exact absurd hue (hno u hu)
    · intro u hu hue _; exact absurd hue (hno u hu)
    · intro _; exact hlogin
  · subst hsome
    simp only at hlogin
    by_cases hc : env.bcryptCompare password u0.password_hash = true
    · simp only [hc, Bool.not_true, Bool.false_eq_true, if_false] at hlogin
      refine ⟨?_, ?_, ?_⟩
      · rw [hlogin]
        exact ⟨fun _ => ⟨u0, hu0, he0, hc⟩, fun _ => rfl⟩
      · intro u hu hue _
        rw [huniq u hu hue]
        exact hlogin
      · intro hnot; exact absurd ⟨u0, hu0, he0, hc⟩ hnot
    · have hcf : env.bcryptCompare password u0.password_hash = false := by
        simpa using hc
      simp only [hcf, Bool.not_false, if_true] at hlogin
      refine ⟨?_, ?_, ?_⟩
      · rw [hlogin]
        constructor
        · intro h; simp at h
        · rintro ⟨u, hu, hue, hcu⟩
          rw [huniq u hu hue] at hcu
          exact absurd hcu hc
      · intro u hu hue hcu
        rw [huniq u hu hue] at hcu
        exact absurd hcu hc
      · intro _; exact hlogin

/-- C3, amended, at the user registered as ana@x.com with password secret1: the
lookup answers, the right password logs in and a wrong one gets the generic message -/
theorem login_nonempty_credentials_witness :
    (∃ r, selectUserByEmail Fault.ok [anaRow] (JsValue.str "ana@x.com") = Reply.data r) ∧
    login sampleEnv [anaRow]
        { email := JsValue.str "ana@x.com", password := JsValue.str "secret1" } Fault.ok =
      { status := 200,
        body := Body.session "header.payload.signature" (JsValue.str "Ana Silva")
          (JsValue.str "ana@x.com") } ∧
    login sampleEnv [anaRow]
        { email := JsValue.str "ana@x.com", password := JsValue.str "wrong" } Fault.ok =
      { status := 400, body := Body.message "Credenciais inválidas." } :=
  ⟨⟨some anaRow, by decide⟩,
    (login_nonempty_credentials sampleEnv [anaRow] "ana@x.com" "secret1" Fault.ok
      (by decide) (by decide) ⟨some anaRow, by decide⟩).2.1 anaRow (by simp) rfl (by decide),
    (login_nonempty_credentials sampleEnv [anaRow] "ana@x.com" "wrong" Fault.ok
      (by decide) (by decide) ⟨some anaRow, by decide⟩).2.2 (by decide)⟩

/-! ## Registration -/

theorem register_store (env : Env) (users : List UserRow) (body : RegisterBody)
    (lookup insert : Fault) (newId : JsValue) :
    (register env users body lookup insert newId).2 = users ∨
    ((∀ u ∈ users, u.email ≠ body.email) ∧
      ∃ row : UserRow, row.email = body.email ∧
        (register env users body lookup insert newId).2 = users ++ [row]) := by
  unfold register
  split_ifs with h1
  · exact Or.inl rfl
  · split
    · exact Or.inl rfl
    · exact Or.inl rfl
    · split
      · exact Or.inl rfl
      · exact Or.inl rfl
      · exact Or.inl rfl
      · rename_i hsel
        rcases selectUserByEmail_data hsel with ⟨_, hno⟩ | ⟨u0, hsome, _⟩
        · split
          · cases insert
            · exact Or.inr ⟨hno, _, rfl, rfl⟩
            · exact Or.inl rfl
            · exact Or.inr ⟨hno, _, rfl, rfl⟩
            · exact Or.inl rfl
          · exact Or.inl rfl
        · simp at hsome

theorem emailUnique_append {users : List UserRow} (h : EmailUnique users) (row : UserRow)
    (hfree : ∀ u ∈ users, u.email ≠ row.email) : EmailUnique (users ++ [row]) := by
  unfold EmailUnique at h ⊢
  rw [List.pairwise_append]
  refine ⟨h, List.pairwise_singleton _ _, ?_⟩
  intro a ha b hb
  simp only [List.mem_singleton] at hb
  subst hb
  exact hfree a ha

theorem lessThan_length_three (name : String) :
    (JsValue.str name).lengthOf.bind (fun len => len.lessThan (JsValue.num (JsNum.fin 3))) =
      some (decide ((codeUnits name).length < 3)) := by
  simp [JsValue.lengthOf, JsValue.lessThan, JsValue.toPrimitive, JsValue.primToNumber,
    JsNum.lt]

theorem register_strings (env : Env) (users : List UserRow) (name email password : String)
    (lookup insert : Fault) (newId : JsValue) (hn : 3 ≤ (codeUnits name).length)
    (he : email ≠ "") (hp : password ≠ "") :
    register env users (registration name email password) lookup insert newId =
      match selectUserByEmail lookup users (JsValue.str email) with
      | Reply.thrown => (internalError, users)
      | Reply.error =>
        ({ status := 500, body := Body.message "Erro ao verificar usuário." }, users)
      | Reply.data (some _) =>
        ({ status := 400, body := Body.message "Já existe um usuário com esse e-mail." },
          users)
      | Reply.data none =>
        match insertUser insert users (registeredRow env newId name email password) with
        | (Reply.thrown, users1) => (internalError, users1)
        | (Reply.error, users1) =>
          ({ status := 500, body := Body.message "Erro ao criar usuário." }, users1)
        | (Reply.data insertedUser, users1) =>
          ({ status := 201,
             body := Body.session (generateToken env insertedUser) insertedUser.name
               insertedUser.email }, users1) := by
  unfold register registration registeredRow
  have hlen : decide ((codeUnits name).length < 3) = false := by
    simp only [decide_eq_false_iff_not]; omega
  have hne : name ≠ "" := by
    rintro rfl
    simp [codeUnits] at hn
  simp only [truthy_str hne, truthy_str he, truthy_str hp, lessThan_length_three, hlen]
  simp

theorem register_taken (env : Env) (users : List UserRow) (name email password : String)
    (insert : Fault) (newId : JsValue) (u0 : UserRow)
    (hsel : selectUserByEmail Fault.ok users (JsValue.str email) = Reply.data (some u0)) :
    (register env users (registration name email password) Fault.ok insert newId).1.status =
        400 ∧
      (register env users (registration name email password) Fault.ok insert newId).2 =
        users := by
  unfold register registration
  simp only [lessThan_length_three, hsel]
  split_ifs
  · exact ⟨rfl, rfl⟩
  · cases decide ((codeUnits name).length < 3) <;> exact ⟨rfl, rfl⟩

/-- C4: for a name of at least three characters, a non-empty e-mail and a non-empty
password, the store calls answering: a fresh e-mail is answered 201 and adds exactly
the one row carrying it; a taken e-mail is answered 400 and adds nothing; after a
successful registration any further one with that e-mail is answered 400 and adds
nothing; and a table without two rows of one e-mail stays so -/
theorem register_once (env : Env) (users : List UserRow) (name email password : String)
    (lookup insert : Fault) (newId : JsValue) (hn : 3 ≤ (codeUnits name).length)
    (he : email ≠ "") (hp : password ≠ "")
    (hl : ∃ r, selectUserByEmail lookup users (JsValue.str email) = Reply.data r)
    (hi : insert = Fault.ok) :
    ((∀ u ∈ users, u.email ≠ JsValue.str email) →
      register env users (registration name email password) lookup insert newId =
        ({ status := 201,
           body := Body.session
             (generateToken env (registeredRow env newId name email password))
             (JsValue.str name) (JsValue.str email) },
          users ++ [registeredRow env newId name email password])) ∧
    ((∃ u ∈ users, u.email = JsValue.str email) →
      register env users (registration name email password) lookup insert newId =
        ({ status := 400, body := Body.message "Já existe um usuário com esse e-mail." },
          users)) ∧
    ((∀ u ∈ users, u.email ≠ JsValue.str email) →
      ∀ (name2 password2 : String) (insert2 : Fault) (newId2 : JsValue),
        (register env
            (register env users (registration name email password) lookup insert newId).2
            (registration name2 email password2) Fault.ok insert2 newId2).1.status = 400 ∧
        (register env
            (register env users (registration name email password) lookup insert newId).2
            (registration name2 email password2) Fault.ok insert2 newId2).2 =
          (register env users (registration name email password) lookup insert newId).2) ∧
    (EmailUnique users →
      EmailUnique
        (register env users (registration name email password) lookup insert newId).2) := by
  obtain ⟨r, hr⟩ := hl
  subst hi
  have hreg := register_strings env users name email password lookup Fault.ok newId hn he hp
  have hfresh : (∀ u ∈ users, u.email ≠ JsValue.str email) →
      register env users (registration name email password) lookup Fault.ok newId =
        ({ status := 201,
           body := Body.session
             (generateToken env (registeredRow env newId name email password))
             (JsValue.str name) (JsValue.str email) },
          users ++ [registeredRow env newId name email password]) := by
    intro hno
    rcases selectUserByEmail_data hr with ⟨hnone, _⟩ | ⟨u0, _, hu0, he0, _⟩
    · subst hnone
      rw [hreg, hr]
      rfl
    · exact absurd he0 (hno u0 hu0)
  refine ⟨hfresh, ?_, ?_, ?_⟩
  · rintro ⟨u, hu, hue⟩
    rcases selectUserByEmail_data hr with ⟨_, hno⟩ | ⟨u0, hsome, _⟩
    · exact absurd hue (hno u hu)
    · subst hsome
      rw [hreg, hr]
  · intro hno name2 password2 insert2 newId2
    rw [hfresh hno]
    apply register_taken env _ name2 email password2 insert2 newId2
      (registeredRow env newId name email password)
    have hnil : users.filter (fun u => decide (u.email = JsValue.str email)) = [] := by
      rw [List.filter_eq_nil_iff]
      intro u hu
      simpa using hno u hu
    simp [selectUserByEmail, readReply, List.filter_append, hnil, registeredRow, maybeSingle]
  · intro huniq
    rcases register_store env users (registration name email password) lookup Fault.ok newId
      with hs | ⟨hno, row, hrow, hs⟩
    · rw [hs]; exact huniq
    · rw [hs]
      apply emailUnique_append huniq
      intro u hu
      rw [hrow]
      exact hno u hu

/-- C4 at the scenario of the specification: Ana Silva registers on an empty table and
gets 201, and the same e-mail registered again gets 400 and adds no row -/
theorem register_once_witness :
    3 ≤ (codeUnits "Ana Silva").length ∧
    (∃ r, selectUserByEmail Fault.ok [] (JsValue.str "ana@x.com") = Reply.data r) ∧
    register sampleEnv [] (registration "Ana Silva" "ana@x.com" "secret1") Fault.ok Fault.ok
        (JsValue.num (JsNum.fin 1)) =
      ({ status := 201,
         body := Body.session "header.payload.signature" (JsValue.str "Ana Silva")
           (JsValue.str "ana@x.com") }, [anaRow]) ∧
    (register sampleEnv [anaRow] (registration "Ana Silva" "ana@x.com" "secret1") Fault.ok
        Fault.ok (JsValue.num (JsNum.fin 2))).1.status = 400 :=
  ⟨by decide, ⟨none, by decide⟩,
    (register_once sampleEnv [] "Ana Silva" "ana@x.com" "secret1" Fault.ok Fault.ok
      (JsValue.num (JsNum.fin 1)) (by decide) (by decide) (by decide) ⟨none, by decide⟩
      rfl).1 (by simp),
    by decide⟩

/-! ## The authentication middleware -/

theorem splitOnSpace_ne_nil (cs : List Char) : splitOnSpace cs ≠ [] := by
  cases cs with
  | nil => simp [splitOnSpace]
  | cons c cs =>
    unfold splitOnSpace
    split_ifs
    · simp
    · split <;> simp

theorem splitOnSpace_head (cs : List Char) :
    (splitOnSpace cs).headD [] = cs.takeWhile (fun c => decide (c ≠ ' ')) := by
  induction cs with
  | nil => simp [splitOnSpace]
  | cons c cs ih =>
    unfold splitOnSpace
    by_cases hc : c = ' '
    · simp [hc]
    · simp only [hc, if_false, List.takeWhile_cons, ne_eq, not_false_eq_true, decide_True,
        if_true]
      split
      · rename_i hnil
        exact absurd hnil (splitOnSpace_ne_nil cs)
      · rename_i piece rest hpr
        rw [hpr] at ih
        simp only [List.headD_cons] at ih ⊢
        rw [ih]

theorem splitOnSpace_no_space (cs : List Char) (h : ' ' ∉ cs) : splitOnSpace cs = [cs] := by
  induction cs with
  | nil => simp [splitOnSpace]
  | cons c cs ih =>
    have hc : c ≠ ' ' := fun e => h (by simp [e])
    have hcs : ' ' ∉ cs := fun e => h (by simp [e])
    unfold splitOnSpace
    simp [hc, ih hcs]

theorem splitOnSpace_append (a b : List Char) (h : ' ' ∉ a) :
    splitOnSpace (a ++ ' ' :: b) = a :: splitOnSpace b := by
  induction a with
  | nil => simp [splitOnSpace]
  | cons c cs ih =>
    have hc : c ≠ ' ' := fun e => h (by simp [e])
    have hcs : ' ' ∉ cs := fun e => h (by simp [e])
    rw [List.cons_append, splitOnSpace]
    simp [hc, ih hcs]

theorem bearer_header (token : String) (hs : ' ' ∉ token.toList) :
    headerScheme ("Bearer " ++ token) = "Bearer" ∧
      headerToken ("Bearer " ++ token) = some token := by
  have hsplit : splitOnSpace ("Bearer " ++ token).toList = ["Bearer".toList, token.toList] := by
    have : ("Bearer " ++ token).toList = "Bearer".toList ++ ' ' :: token.toList := by
      simp [String.toList]
    rw [this, splitOnSpace_append _ _ (by decide), splitOnSpace_no_space _ hs]
  constructor
  · unfold headerScheme
    rw [hsplit]
    rfl
  · unfold headerToken
    rw [hsplit]
    rfl

/-- C5: the middleware answers 401 and does not call next when the scheme (the text
before the first space) is not exactly Bearer, when the token is absent or empty, or
when it does not verify; it calls next only for the scheme Bearer and a token that
verifies, with req.user the decoded userId and email, which for a token made by
generateToken(user) are that user's id and e-mail -/
theorem authMiddleware_gate (env : Env) :
    (∀ authorization : Option String,
      headerScheme (authorization.getD "") =
        String.mk ((authorization.getD "").toList.takeWhile (fun c => decide (c ≠ ' ')))) ∧
    (∀ authorization : Option String,
      (headerScheme (authorization.getD "") ≠ "Bearer" ∨
        headerToken (authorization.getD "") = none ∨
        headerToken (authorization.getD "") = some "" ∨
        ∃ token, headerToken (authorization.getD "") = some token ∧
          env.jwtVerify token = none) →
      ∃ m, authMiddleware env authorization =
        AuthOutcome.respond { status := 401, body := Body.message m }) ∧
    (∀ (authorization : Option String) (user : ReqUser),
      authMiddleware env authorization = AuthOutcome.next user →
      headerScheme (authorization.getD "") = "Bearer" ∧
      ∃ token decoded, headerToken (authorization.getD "") = some token ∧ token ≠ "" ∧
        env.jwtVerify token = some decoded ∧
        user = { id := decoded.userId, email := decoded.email }) ∧
    (∀ u : UserRow, generateToken env u ≠ "" → ' ' ∉ (generateToken env u).toList →
      env.jwtVerify (generateToken env u) = some { userId := u.id, email := u.email } →
      authMiddleware env (some ("Bearer " ++ generateToken env u)) =
        AuthOutcome.next { id := u.id, email := u.email }) := by
  refine ⟨?_, ?_, ?_, ?_⟩
  · intro authorization
    unfold headerScheme
    rw [splitOnSpace_head]
  · intro authorization h
    unfold authMiddleware
    simp only []
    split_ifs with hbad
    · exact ⟨_, rfl⟩
    · rw [not_or] at hbad
      obtain ⟨hscheme, htok⟩ := hbad
      rcases h with h | h | h | ⟨token, h, hv⟩
      · exact absurd h (not_not.mpr (not_not.mp hscheme))
      · rw [h] at htok; exact absurd rfl htok
      · rw [h] at htok; exact absurd rfl htok
      · rw [h]
        simp only [Option.getD_some, hv]
        exact ⟨_, rfl⟩
  · intro authorization user h
    unfold authMiddleware at h
    simp only [] at h
    split_ifs at h with hbad
    rw [not_or] at hbad
    obtain ⟨hscheme, htok⟩ := hbad
    refine ⟨not_not.mp hscheme, ?_⟩
    cases htk : headerToken (authorization.getD "") with
    | none => rw [htk] at htok; exact absurd rfl htok
    | some token =>
      rw [htk] at htok h
      simp only [Option.getD_some] at htok h
      cases hv : env.jwtVerify token with
      | none => rw [hv] at h; simp at h
      | some decoded =>
        rw [hv] at h
        simp only [AuthOutcome.next.injEq] at h
        exact ⟨token, decoded, rfl, htok, hv, h.symm⟩
  · intro u hne hsp hv
    obtain ⟨hscheme, htoken⟩ := bearer_header (generateToken env u) hsp
    unfold authMiddleware
    simp only [Option.getD_some, hscheme, htoken, hv, ne_eq, not_true_eq_false, hne, or_self,
      if_false]

/-- C5 at the sample libraries: the header `Bearer <token of user 1>` passes and sets
req.user to the id and e-mail of user 1; no header, another scheme and a token that
does not verify get 401 -/
theorem authMiddleware_gate_witness :
    authMiddleware sampleEnv (some ("Bearer " ++ generateToken sampleEnv anaRow)) =
      AuthOutcome.next { id := anaRow.id, email := anaRow.email } ∧
    authMiddleware sampleEnv none =
      AuthOutcome.respond { status := 401, body := Body.message "Token não fornecido." } ∧
    authMiddleware sampleEnv (some "Basic header.payload.signature") =
      AuthOutcome.respond { status := 401, body := Body.message "Token não fornecido." } ∧
    authMiddleware sampleEnv (some "Bearer forged") =
      AuthOutcome.respond
        { status := 401, body := Body.message "Token inválido ou expirado." } :=
  ⟨(authMiddleware_gate sampleEnv).2.2.2 anaRow (by decide) (by decide) (by decide),
    by decide, by decide, by decide⟩

/-! ## Quantities -/

/-- C6, as the claim states it, fails: with a name, an SKU and the valid id 1, the body
whose quantity is -1 and whose minQuantity is an object with an own toString key is
answered 500 by the catch block of both handlers, not 400, because Number(minQuantity)
throws before the sign test; the store is untouched -/
theorem negative_quantity_answered_500 :
    throwingBody.name.truthy = true ∧ throwingBody.sku.truthy = true ∧
    (throwingBody.quantity.orDefault (JsValue.num (JsNum.fin 0))).toNumber =
      some (JsNum.fin (-1)) ∧
    JsNum.lt (JsNum.fin (-1)) (JsNum.fin 0) = true ∧
    (throwingBody.minQuantity.orDefault (JsValue.num (JsNum.fin 0))).toNumber = none ∧
    postProducts sampleStore ana throwingBody Fault.ok Fault.ok sampleAssigned =
      ({ status := 500, body := Body.message "Erro interno no servidor." }, sampleStore) ∧
    putProductsId sampleStore ana "1" throwingBody Fault.ok Fault.ok =
      ({ status := 500, body := Body.message "Erro interno no servidor." }, sampleStore) := by
  decide!

/-- C6, amended: with a valid id, a name and an SKU, when quantity or minQuantity
resolves through Number(x ?? 0) to a negative number, POST /products and
PUT /products/:id return the store as it was, whatever it holds and whatever the store
calls would have answered, and answer 400 when the conversion of the other value
returns too, 500 (the catch block) when it throws -/
theorem negative_quantity_rejected (store : List ProductRow) (user : ReqUser)
    (idParam : String) (body : ProductBody) (lookup write : Fault) (assigned : Assigned)
    (hid : ((stringToNumber idParam).falsy || (stringToNumber idParam).isNaN) = false)
    (hname : body.name.truthy = true) (hsku : body.sku.truthy = true)
    (hneg :
      (∃ qty, (body.quantity.orDefault (JsValue.num (JsNum.fin 0))).toNumber = some qty ∧
        qty.lt (JsNum.fin 0) = true) ∨
      (∃ minQty,
        (body.minQuantity.orDefault (JsValue.num (JsNum.fin 0))).toNumber = some minQty ∧
        minQty.lt (JsNum.fin 0) = true)) :
    postProducts store user body lookup write assigned =
        (if (body.quantity.orDefault (JsValue.num (JsNum.fin 0))).toNumber.isSome ∧
            (body.minQuantity.orDefault (JsValue.num (JsNum.fin 0))).toNumber.isSome then
          { status := 400,
            body := Body.message "Quantidade e estoque mínimo não podem ser negativos." }
        else { status := 500, body := Body.message "Erro interno no servidor." }, store) ∧
      putProductsId store user idParam body lookup write =
        (if (body.quantity.orDefault (JsValue.num (JsNum.fin 0))).toNumber.isSome ∧
            (body.minQuantity.orDefault (JsValue.num (JsNum.fin 0))).toNumber.isSome then
          { status := 400,
            body := Body.message "Quantidade e estoque mínimo não podem ser negativos." }
        else { status := 500, body := Body.message "Erro interno no servidor." }, store) := by
  constructor
  · unfold postProducts
    simp only [hname, hsku, Bool.not_true, Bool.or_self, Bool.false_eq_true, if_false]
    split
    · rename_i qty minQty hq hm
      have hor : (qty.lt (JsNum.fin 0) || minQty.lt (JsNum.fin 0)) = true := by
        rcases hneg with ⟨q, hq1, hlt⟩ | ⟨m, hm1, hlt⟩
        · rw [hq] at hq1; cases hq1; simp [hlt]
        · rw [hm] at hm1; cases hm1; simp [hlt]
      simp [hor, hq, hm]
    · rename_i hnot
      have hthrows : ¬ ((body.quantity.orDefault
            (JsValue.num (JsNum.fin 0))).toNumber.isSome = true ∧
          (body.minQuantity.orDefault
            (JsValue.num (JsNum.fin 0))).toNumber.isSome = true) := by
        rintro ⟨h1, h2⟩
        obtain ⟨qty, hq⟩ := Option.isSome_iff_exists.mp h1
        obtain ⟨minQty, hm⟩ := Option.isSome_iff_exists.mp h2
        exact hnot qty minQty hq hm
      simp only [hthrows, if_false, internalError]
  · unfold putProductsId
    simp only [hid, hname, hsku, Bool.not_true, Bool.or_self, Bool.false_eq_true, if_false]
    split
    · rename_i qty minQty hq hm
      have hor : (qty.lt (JsNum.fin 0) || minQty.lt (JsNum.fin 0)) = true := by
        rcases hneg with ⟨q, hq1, hlt⟩ | ⟨m, hm1, hlt⟩
        · rw [hq] at hq1; cases hq1; simp [hlt]
        · rw [hm] at hm1; cases hm1; simp [hlt]
      simp [hor, hq, hm]
    · rename_i hnot
      have hthrows : ¬ ((body.quantity.orDefault
            (JsValue.num (JsNum.fin 0))).toNumber.isSome = true ∧
          (body.minQuantity.orDefault
            (JsValue.num (JsNum.fin 0))).toNumber.isSome = true) := by
        rintro ⟨h1, h2⟩
        obtain ⟨qty, hq⟩ := Option.isSome_iff_exists.mp h1
        obtain ⟨minQty, hm⟩ := Option.isSome_iff_exists.mp h2
        exact hnot qty minQty hq hm
      simp only [hthrows, if_false, internalError]

/-- C6, amended, at the body whose quantity is the string "-3" and whose minQuantity is
absent: Number gives -3 and 0, and both the create and the update of product 1 are
answered 400 with the store untouched -/
theorem negative_quantity_rejected_witness :
    (negativeBody.quantity.orDefault (JsValue.num (JsNum.fin 0))).toNumber =
        some (JsNum.fin (-3)) ∧
    (negativeBody.minQuantity.orDefault (JsValue.num (JsNum.fin 0))).toNumber =
        some (JsNum.fin 0) ∧
    JsNum.lt (JsNum.fin (-3)) (JsNum.fin 0) = true ∧
    postProducts sampleStore ana negativeBody Fault.ok Fault.ok sampleAssigned =
        ({ status := 400,
           body := Body.message "Quantidade e estoque mínimo não podem ser negativos." },
          sampleStore) ∧
    putProductsId sampleStore ana "1" negativeBody Fault.ok Fault.ok =
        ({ status := 400,
           body := Body.message "Quantidade e estoque mínimo não podem ser negativos." },
          sampleStore) :=
  ⟨by decide!, by decide!, by decide,
    (negative_quantity_rejected sampleStore ana "1" negativeBody Fault.ok Fault.ok
      sampleAssigned (by decide!) (by decide) (by decide)
      (Or.inl ⟨JsNum.fin (-3), by decide!, by decide⟩)).1.trans (by decide!),
    (negative_quantity_rejected sampleStore ana "1" negativeBody Fault.ok Fault.ok
      sampleAssigned (by decide!) (by decide) (by decide)
      (Or.inl ⟨JsNum.fin (-3), by decide!, by decide⟩)).2.trans (by decide!)⟩

/-- C7, as the claim states it, fails: the body with quantity 1.5 and minQuantity
"abc" passes validation and is answered 201, and the row handed to the store has
quantity 3/2 and min_quantity NaN, neither of them an integer -/
theorem fraction_and_nan_stored :
    postProducts [] ana fractionBody Fault.ok Fault.ok sampleAssigned =
      ({ status := 201,
         body := Body.product
           { id := JsValue.num (JsNum.fin 3)
             name := JsValue.str "Widget"
             sku := JsValue.str "W-1"
             quantity := JsNum.fin (3 / 2)
             minQuantity := JsNum.nan
             category := JsValue.null
             createdAt := 300
             lastUpdated := 300 } },
        [{ id := JsValue.num (JsNum.fin 3)
           user_id := JsValue.num (JsNum.fin 1)
           name := JsValue.str "Widget"
           sku := JsValue.str "W-1"
           quantity := JsNum.fin (3 / 2)
           min_quantity := JsNum.nan
           category := JsValue.null
           created_at := 300
           updated_at := 300 }]) ∧
    JsNum.isInteger (JsNum.fin (3 / 2)) = false ∧
    JsNum.isInteger JsNum.nan = false := by
  decide!

theorem lt_zero_false_iff (n : JsNum) :
    n.lt (JsNum.fin 0) = false ↔
      n = JsNum.nan ∨ n = JsNum.inf false ∨ ∃ q : ℚ, 0 ≤ q ∧ n = JsNum.fin q := by
  cases n with
  | nan => simp [JsNum.lt]
  | inf neg => cases neg <;> simp [JsNum.lt]
  | fin q => simp [JsNum.lt]

/-- C7, amended: every row a create or an update adds to the store or rewrites in it
has a quantity and a min_quantity that are not negative: each is NaN, +Infinity or a
rational number that is at least zero (possibly a fraction) -/
theorem written_quantities_not_negative (store : List ProductRow) (user : ReqUser)
    (idParam : String) (body : ProductBody) (lookup write : Fault) (assigned : Assigned) :
    (∀ r ∈ (postProducts store user body lookup write assigned).2,
      r ∈ store ∨ (r.quantity.lt (JsNum.fin 0) = false ∧
        r.min_quantity.lt (JsNum.fin 0) = false)) ∧
    (∀ r ∈ (putProductsId store user idParam body lookup write).2,
      r ∈ store ∨ (r.quantity.lt (JsNum.fin 0) = false ∧
        r.min_quantity.lt (JsNum.fin 0) = false)) ∧
    (∀ n : JsNum, n.lt (JsNum.fin 0) = false ↔
      n = JsNum.nan ∨ n = JsNum.inf false ∨ ∃ q : ℚ, 0 ≤ q ∧ n = JsNum.fin q) := by
  refine ⟨?_, ?_, lt_zero_false_iff⟩
  · intro r hr
    rcases postProducts_store store user body lookup write assigned with
      hs | ⟨qty, minQty, hq0, hm0, _, hs⟩
    · rw [hs] at hr; exact Or.inl hr
    · rw [hs, List.mem_append, List.mem_singleton] at hr
      rcases hr with hr | hr
      · exact Or.inl hr
      · subst hr; exact Or.inr ⟨hq0, hm0⟩
  · intro r hr
    rcases putProductsId_store store user idParam body lookup write with
      hs | ⟨qty, minQty, hq0, hm0, _, hs⟩
    · rw [hs] at hr; exact Or.inl hr
    · rw [hs] at hr
      unfold updatedRows at hr
      split at hr
      · rw [List.mem_map] at hr
        obtain ⟨p, hp, hpr⟩ := hr
        split at hpr
        · subst hpr; exact Or.inr ⟨hq0, hm0⟩
        · subst hpr; exact Or.inl hp
      · exact Or.inl hr

/-! ## Listing -/

/-- C8: the query answering, GET /products answers 200 with the caller's rows and no
others, one element per row, newest first, each row mapped field by field to the API
names; a null result gives the empty list -/
theorem getProducts_lists_own_rows (store : List ProductRow) (user : ReqUser) :
    (∃ rows : List ProductRow,
      getProducts store user Fault.ok =
        { status := 200, body := Body.products (rows.map normalize) } ∧
      rows.Perm (store.filter (fun p => decide (p.user_id = user.id))) ∧
      (∀ p ∈ rows, p ∈ store ∧ p.user_id = user.id) ∧
      rows.Pairwise (fun a b => b.created_at ≤ a.created_at) ∧
      (rows.map normalize).length =
        (store.filter (fun p => decide (p.user_id = user.id))).length) ∧
    (∀ p : ProductRow,
      normalize p =
        { id := p.id, name := p.name, sku := p.sku, quantity := p.quantity,
          minQuantity := p.min_quantity, category := p.category,
          createdAt := p.created_at, lastUpdated := p.updated_at }) ∧
    listResponse (Reply.data none) = { status := 200, body := Body.products [] } := by
  refine ⟨?_, fun _ => rfl, rfl⟩
  haveI : IsTotal ProductRow (fun a b => b.created_at ≤ a.created_at) :=
    ⟨fun a b => Nat.le_total b.created_at a.created_at⟩
  haveI : IsTrans ProductRow (fun a b => b.created_at ≤ a.created_at) :=
    ⟨fun a b c hab hbc => Nat.le_trans hbc hab⟩
  have hperm := List.perm_insertionSort (fun a b : ProductRow => b.created_at ≤ a.created_at)
    (store.filter (fun p => decide (p.user_id = user.id)))
  refine ⟨_, rfl, hperm, ?_, ?_, ?_⟩
  · intro p hp
    have := hperm.subset hp
    simpa [List.mem_filter] using this
  · exact List.sorted_insertionSort (fun a b : ProductRow => b.created_at ≤ a.created_at) _
  · rw [List.length_map]
    exact hperm.length_eq

/-! ## The id of a product route -/

theorem falsy_or_isNaN (n : JsNum) : (n.falsy || n.isNaN) = n.falsy := by
  cases n <;> simp [JsNum.falsy, JsNum.isNaN]

/-- C9, as the claim states it, fails: the ids "0x1", " 1 " and "1e0" are not the
decimal representation of a positive integer, yet Number reads each as 1 and the
product 1 of the caller is deleted or updated; "-5", "1.5" and "Infinity" pass the
validation as well and reach the store call, whose answer decides the response -/
theorem nondecimal_ids_accepted :
    deleteProductsId sampleStore ana "0x1" Fault.ok =
      ({ status := 200, body := Body.message "Produto removido com sucesso." }, [otherRow]) ∧
    deleteProductsId sampleStore ana " 1 " Fault.ok =
      ({ status := 200, body := Body.message "Produto removido com sucesso." }, [otherRow]) ∧
    (putProductsId sampleStore ana "1e0" gadgetBody Fault.ok Fault.ok).1.status = 200 ∧
    (deleteProductsId sampleStore ana "-5" Fault.ok).1 =
      { status := 200, body := Body.message "Produto removido com sucesso." } ∧
    (deleteProductsId sampleStore ana "1.5" Fault.error).1 =
      { status := 500, body := Body.message "Erro ao remover produto." } ∧
    (putProductsId sampleStore ana "Infinity" gadgetBody Fault.error Fault.ok).1 =
      { status := 500, body := Body.message "Erro ao verificar SKU." } := by
  decide!

/-- C9, amended: PUT /products/:id and DELETE /products/:id answer 400 "ID inválido."
and leave the store alone exactly when Number(id) is zero or NaN, whatever the body,
the store and the store calls; every other id passes this validation -/
theorem invalid_id_rejected (store : List ProductRow) (user : ReqUser) (idParam : String)
    (body : ProductBody) (lookup write : Fault) :
    ((stringToNumber idParam).falsy = true →
      putProductsId store user idParam body lookup write =
        ({ status := 400, body := Body.message "ID inválido." }, store) ∧
      deleteProductsId store user idParam write =
        ({ status := 400, body := Body.message "ID inválido." }, store)) ∧
    ((stringToNumber idParam).falsy = false →
      (putProductsId store user idParam body lookup write).1 ≠
        { status := 400, body := Body.message "ID inválido." } ∧
      (deleteProductsId store user idParam write).1 ≠
        { status := 400, body := Body.message "ID inválido." }) ∧
    ((stringToNumber idParam).falsy = true ↔
      stringToNumber idParam = JsNum.nan ∨ stringToNumber idParam = JsNum.fin 0) := by
  refine ⟨?_, ?_, ?_⟩
  · intro h
    constructor
    · unfold putProductsId
      simp only []
      rw [falsy_or_isNaN]
      simp only [h, if_true]
    · unfold deleteProductsId
      simp only []
      rw [falsy_or_isNaN]
      simp only [h, if_true]
  · intro h
    constructor
    · unfold putProductsId
      simp only []
      rw [falsy_or_isNaN]
      simp only [h, Bool.false_eq_true, if_false]
      split_ifs
      · simp
      · split
        · split_ifs
          · simp
          · split
            · simp [internalError]
            · simp
            · split_ifs
              · simp
              · split
                · simp [internalError]
                · simp
                · simp
        · simp [internalError]
    · unfold deleteProductsId
      simp only []
      rw [falsy_or_isNaN]
      simp only [h, Bool.false_eq_true, if_false]
      split
      · simp [internalError]
      · simp
      · simp
  · cases stringToNumber idParam <;> simp [JsNum.falsy]

/-- C9, amended, at concrete ids: "abc", "0", "-0", "0.0" and the empty and the blank
string read as NaN or zero and are rejected; "7", "-5", "1.5", "Infinity", "1e3" and
"0x10" are not -/
theorem invalid_id_rejected_witness :
    ((stringToNumber "abc").falsy = true ∧ (stringToNumber "0").falsy = true ∧
      (stringToNumber "-0").falsy = true ∧ (stringToNumber "0.0").falsy = true ∧
      (stringToNumber "").falsy = true ∧ (stringToNumber "  ").falsy = true) ∧
    ((stringToNumber "7").falsy = false ∧ (stringToNumber "-5").falsy = false ∧
      (stringToNumber "1.5").falsy = false ∧ (stringToNumber "Infinity").falsy = false ∧
      (stringToNumber "1e3").falsy = false ∧ (stringToNumber "0x10").falsy = false) ∧
    deleteProductsId sampleStore ana "abc" Fault.ok =
      ({ status := 400, body := Body.message "ID inválido." }, sampleStore) :=
  ⟨by decide!, by decide!,
    ((invalid_id_rejected sampleStore ana "abc" gadgetBody Fault.ok Fault.ok).1
      (by decide!)).2⟩

/-! ## The low-stock flag of the client -/

theorem getProp_toObject_quantidade (p : ApiProduct) :
    getProp p.toObject "quantidade" = JsValue.undefined ∧
      getProp p.toObject "estoque_minimo" = JsValue.undefined := by
  constructor <;> simp [getProp, ApiProduct.toObject, List.lookup]

/-- C10, as the claim states it, fails: the product created from
{name:"Widget", sku:"W-1", quantity:5, minQuantity:10} is returned with quantity 5 and
minQuantity 10, and the client renders it as "Normal" with the class status-ok -/
theorem widget_rendered_normal :
    (postProducts [] ana widgetBody Fault.ok Fault.ok sampleAssigned).1 =
      { status := 201,
        body := Body.product
          { id := JsValue.num (JsNum.fin 3)
            name := JsValue.str "Widget"
            sku := JsValue.str "W-1"
            quantity := JsNum.fin 5
            minQuantity := JsNum.fin 10
            category := JsValue.null
            createdAt := 300
            lastUpdated := 300 } } ∧
    JsNum.le (JsNum.fin 5) (JsNum.fin 10) = true ∧
    alerta (ApiProduct.toObject
      { id := JsValue.num (JsNum.fin 3)
        name := JsValue.str "Widget"
        sku := JsValue.str "W-1"
        quantity := JsNum.fin 5
        minQuantity := JsNum.fin 10
        category := JsValue.null
        createdAt := 300
        lastUpdated := 300 }) = some false ∧
    statusCell (ApiProduct.toObject
      { id := JsValue.num (JsNum.fin 3)
        name := JsValue.str "Widget"
        sku := JsValue.str "W-1"
        quantity := JsNum.fin 5
        minQuantity := JsNum.fin 10
        category := JsValue.null
        createdAt := 300
        lastUpdated := 300 }) = some ("status-ok", "Normal") := by
  decide!

/-- C10, amended: the client flags a product exactly when its quantidade is at most
its estoque_minimo, the fields of the legacy shape it reads; an object of the shape
the product API returns has neither field and is never flagged -/
theorem alerta_reads_legacy_fields :
    (∀ (o : JsObject) (q m : JsNum), getProp o "quantidade" = JsValue.num q →
      getProp o "estoque_minimo" = JsValue.num m →
      alerta o = some (JsNum.le q m) ∧
      (statusCell o = some ("status-alert", "Estoque Baixo") ↔ JsNum.le q m = true)) ∧
    (∀ a b : ℚ, JsNum.le (JsNum.fin a) (JsNum.fin b) = true ↔ a ≤ b) ∧
    (∀ p : ApiProduct, alerta p.toObject = some false ∧
      statusCell p.toObject = some ("status-ok", "Normal")) := by
  refine ⟨?_, ?_, ?_⟩
  · intro o q m hq hm
    have ha : alerta o = some (JsNum.le q m) := by
      simp [alerta, hq, hm, JsValue.lessEq, JsValue.toPrimitive, JsValue.primToNumber]
    refine ⟨ha, ?_⟩
    unfold statusCell
    rw [ha]
    cases JsNum.le q m <;> simp
  · intro a b
    simp [JsNum.le, JsNum.lt]
  · intro p
    obtain ⟨hq, hm⟩ := getProp_toObject_quantidade p
    have ha : alerta p.toObject = some false := by
      simp [alerta, hq, hm, JsValue.lessEq, JsValue.toPrimitive, JsValue.primToNumber,
        JsNum.le]
    refine ⟨ha, ?_⟩
    unfold statusCell
    rw [ha]
    rfl

/-- C10, amended, at a product of the legacy shape with quantidade 5 and
estoque_minimo 10: it is flagged -/
theorem alerta_reads_legacy_fields_witness :
    getProp produtoLegado "quantidade" = JsValue.num (JsNum.fin 5) ∧
    getProp produtoLegado "estoque_minimo" = JsValue.num (JsNum.fin 10) ∧
    statusCell produtoLegado = some ("status-alert", "Estoque Baixo") :=
  ⟨by decide, by decide,
    ((alerta_reads_legacy_fields.1 produtoLegado (JsNum.fin 5) (JsNum.fin 10) (by decide)
      (by decide)).2).mpr (by decide)⟩

/-! ## The health route -/

/-- C11, as the claim states it, fails twice: a request the body parser lets through
is answered 200 with the message "API EstoqueHub online", which is not the body
{message: "API online"}; and a request with a malformed JSON body is answered 400 by
the body parser, not 200 -/
theorem health_message_not_api_online :
    (healthRoute sampleEnv none BodyParser.next sampleStore).1 =
      { status := 200, body := Body.message "API EstoqueHub online" } ∧
    (healthRoute sampleEnv none BodyParser.next sampleStore).1 ≠
      { status := 200, body := Body.message "API online" } ∧
    (healthRoute sampleEnv none (BodyParser.refuse 400) sampleStore).1 =
      { status := 400, body := Body.errorPage } ∧
    (healthRoute sampleEnv none (BodyParser.refuse 400) sampleStore).1.status ≠ 200 := by
  decide

/-- C11, amended: every request that the body parser registered before the routes lets
through, with or without an Authorization header, is answered by GET / with status 200
and the body {message: "API EstoqueHub online"}, the store returned as it was and the
auth gate not consulted (the answer differs from the refusal the gate would give); a
request whose body the parser refuses is answered with the status of that error, the
handler not running and the store as it was -/
theorem health_route_online {σ : Type} (env : Env) (authorization : Option String) (s : σ) :
    healthRoute env authorization BodyParser.next s =
        ({ status := 200, body := Body.message "API EstoqueHub online" }, s) ∧
      (∀ status, healthRoute env authorization (BodyParser.refuse status) s =
        ({ status := status, body := Body.errorPage }, s)) ∧
      (∀ r, authMiddleware env authorization = AuthOutcome.respond r →
        (healthRoute env authorization BodyParser.next s).1 ≠ r ∧
        appMiddleware BodyParser.next
          (protectedRoute env authorization (fun _ t => getRoot t)) s = (r, s)) := by
  refine ⟨rfl, fun _ => rfl, ?_⟩
  intro r hr
  constructor
  · unfold authMiddleware at hr
    simp only [] at hr
    split_ifs at hr
    · cases hr; simp [healthRoute, appMiddleware, openRoute, getRoot]
    · split at hr
      · cases hr
      · cases hr; simp [healthRoute, appMiddleware, openRoute, getRoot]
  · simp [appMiddleware, protectedRoute, hr]

/-- C11, amended, at a request without a header, one with a forged token and one with
a good token, each let through by the body parser: each gets the same 200 and the
products table is untouched, although the auth gate answers 401 to the first two; the
same request with a body the parser refuses gets the 400 of the parser -/
theorem health_route_online_witness :
    healthRoute sampleEnv none BodyParser.next sampleStore =
      ({ status := 200, body := Body.message "API EstoqueHub online" }, sampleStore) ∧
    healthRoute sampleEnv (some "Bearer forged") BodyParser.next sampleStore =
      ({ status := 200, body := Body.message "API EstoqueHub online" }, sampleStore) ∧
    healthRoute sampleEnv (some "Bearer header.payload.signature") BodyParser.next
        sampleStore =
      ({ status := 200, body := Body.message "API EstoqueHub online" }, sampleStore) ∧
    healthRoute sampleEnv none (BodyParser.refuse 400) sampleStore =
      ({ status := 400, body := Body.errorPage }, sampleStore) ∧
    authMiddleware sampleEnv none =
      AuthOutcome.respond { status := 401, body := Body.message "Token não fornecido." } ∧
    authMiddleware sampleEnv (some "Bearer forged") =
      AuthOutcome.respond
        { status := 401, body := Body.message "Token inválido ou expirado." } :=
  ⟨(health_route_online sampleEnv none sampleStore).1,
    (health_route_online sampleEnv (some "Bearer forged") sampleStore).1,
    (health_route_online sampleEnv (some "Bearer header.payload.signature") sampleStore).1,
    (health_route_online sampleEnv none sampleStore).2.1 400,
    by decide, by decide⟩

end Estoque
